import Mathlib

/-!
# BindlessTextureMinimumDemo: a shallow embedding of `main.cpp`

The program is a straight-line OpenGL client with two loops (the texture load
loop and the frame loop).  It is embedded by explicit state passing: every
library call of `main.cpp` is a function on `GLState`, the answers of the
outside world (GLFW, GLEW, the GL driver, stb_image) are read from an `Env`,
and every call is recorded in `GLState.log`.

Target assumptions: 64-bit little-endian (`size_t` is 64 bits wide,
`GLsizeiptr` is its signed counterpart, `sizeof(GLuint64) = 8`).
-/

namespace BindlessDemo

abbrev GLuint := Nat
abbrev GLuint64 := Nat

/-- Host-side macro `BINDING_POINT_TEXTURE_SSBO` (main.cpp line 12). -/
def BINDING_POINT_TEXTURE_SSBO : Nat := 2

/-- Value of `sizeof(GLuint64)`. -/
def sizeof_GLuint64 : Nat := 8

inductive BufferTarget where
  | GL_ARRAY_BUFFER
  | GL_ELEMENT_ARRAY_BUFFER
  | GL_SHADER_STORAGE_BUFFER
  deriving DecidableEq, Repr

inductive BufferUsage where
  | GL_STREAM_DRAW | GL_STREAM_READ | GL_STREAM_COPY
  | GL_STATIC_DRAW | GL_STATIC_READ | GL_STATIC_COPY
  | GL_DYNAMIC_DRAW | GL_DYNAMIC_READ | GL_DYNAMIC_COPY
  deriving DecidableEq, Repr

inductive ShaderType where
  | GL_VERTEX_SHADER
  | GL_FRAGMENT_SHADER
  deriving DecidableEq, Repr

/-- The two shader source strings of main.cpp (lines 14-26 and 28-59). -/
inductive ShaderSource where
  | vertexShaderSource
  | fragmentShaderSource
  deriving DecidableEq, Repr

inductive TexParameter where
  | GL_TEXTURE_WRAP_S
  | GL_TEXTURE_WRAP_T
  | GL_TEXTURE_MIN_FILTER
  | GL_TEXTURE_MAG_FILTER
  deriving DecidableEq, Repr

/-- Values a wrap or filter parameter of a 2D texture can take. -/
inductive TexValue where
  | GL_REPEAT | GL_MIRRORED_REPEAT | GL_CLAMP_TO_EDGE | GL_CLAMP_TO_BORDER
  | GL_NEAREST | GL_LINEAR
  | GL_NEAREST_MIPMAP_NEAREST | GL_LINEAR_MIPMAP_NEAREST
  | GL_NEAREST_MIPMAP_LINEAR | GL_LINEAR_MIPMAP_LINEAR
  deriving DecidableEq, Repr

/-- A minification filter samples the mipmap chain exactly when it is one of
the four `*_MIPMAP_*` filters; `GL_NEAREST` and `GL_LINEAR` read level 0 only. -/
def TexValue.usesMipmaps : TexValue → Bool
  | .GL_NEAREST_MIPMAP_NEAREST => true
  | .GL_LINEAR_MIPMAP_NEAREST => true
  | .GL_NEAREST_MIPMAP_LINEAR => true
  | .GL_LINEAR_MIPMAP_LINEAR => true
  | _ => false

inductive GLError where
  | GL_INVALID_VALUE
  | GL_INVALID_OPERATION
  deriving DecidableEq, Repr

/-- Result of a successful `stbi_load`: the out-parameters and the pixel bytes. -/
structure Image where
  width : Nat
  height : Nat
  nrChannels : Nat
  data : List Nat
  deriving DecidableEq, Repr

structure BufferObject where
  data : List Nat
  usage : BufferUsage
  deriving DecidableEq, Repr

/-- Level 0 of a texture as `glTexImage2D` stores it. -/
structure TexImage where
  width : Nat
  height : Nat
  pixels : List Nat
  deriving DecidableEq, Repr

structure TextureObject where
  wrapS : TexValue
  wrapT : TexValue
  minFilter : TexValue
  magFilter : TexValue
  image : Option TexImage
  mipmapChain : Bool
  deriving DecidableEq, Repr

/-- State of a texture object when it is first bound (OpenGL defaults). -/
def TextureObject.fresh : TextureObject :=
  { wrapS := .GL_REPEAT, wrapT := .GL_REPEAT,
    minFilter := .GL_NEAREST_MIPMAP_LINEAR, magFilter := .GL_LINEAR,
    image := none, mipmapChain := false }

structure ShaderObject where
  type : ShaderType
  source : Option ShaderSource
  compileStatus : Bool
  infoLog : String
  deriving DecidableEq, Repr

structure ProgramObject where
  attached : List GLuint
  linkStatus : Bool
  infoLog : String
  deriving DecidableEq, Repr

/-- What `glGetTextureHandleARB` hands out: the handle, the texture it was
derived from, and that texture's state at that moment (a texture is immutable
once a handle exists for it). -/
structure HandleRecord where
  handle : GLuint64
  texture : GLuint
  state : TextureObject
  deriving DecidableEq, Repr

/-- What one `glDrawElements` executes with: the program in use, the vertex
array, and the buffer (name and contents) visible at the binding point that
the fragment shader declares for `TextureBlock`. -/
structure DrawRecord where
  program : GLuint
  vao : GLuint
  ssbo : GLuint
  ssboContents : Option (List Nat)
  deriving DecidableEq, Repr

/-- Every library call of main.cpp, with the arguments that matter. -/
inductive Call where
  | glfwInit
  | glfwCreateWindow (width height : Nat) (title : String)
  | glfwTerminate
  | glfwMakeContextCurrent
  | glewInit
  | glewIsSupported (name : String)
  | glGenVertexArrays (out : GLuint)
  | glGenBuffers (out : GLuint)
  | glBindVertexArray (array : GLuint)
  | glBindBuffer (target : BufferTarget) (buffer : GLuint)
  | glBufferData (target : BufferTarget) (size : Int) (usage : BufferUsage)
  | glVertexAttribPointer (index size stride offset : Nat)
  | glEnableVertexAttribArray (index : Nat)
  | glCreateShader (type : ShaderType) (out : GLuint)
  | glShaderSource (shader : GLuint) (source : ShaderSource)
  | glCompileShader (shader : GLuint)
  | glGetShaderiv (shader : GLuint) (out : Bool)
  | glGetShaderInfoLog (shader : GLuint) (bufSize : Nat)
  | glCreateProgram (out : GLuint)
  | glAttachShader (program shader : GLuint)
  | glLinkProgram (program : GLuint)
  | glGetProgramiv (program : GLuint) (out : Bool)
  | glGetProgramInfoLog (program : GLuint) (bufSize : Nat)
  | glDeleteShader (shader : GLuint)
  | stbi_load (filename : String) (ok : Bool)
  | glGenTextures (out : GLuint)
  | glBindTexture (texture : GLuint)
  | glTexParameteri (pname : TexParameter) (param : TexValue)
  | glTexImage2D (width height : Nat)
  | glGenerateMipmap
  | stbi_image_free
  | glGetTextureHandleARB (texture : GLuint) (out : GLuint64)
  | glIsTextureHandleResidentARB (handle : GLuint64) (out : Bool)
  | glMakeTextureHandleResidentARB (handle : GLuint64)
  | glfwWindowShouldClose (out : Bool)
  | glClear
  | glUseProgram (program : GLuint)
  | glBindBufferBase (target : BufferTarget) (index : Nat) (buffer : GLuint)
  | glDrawElements (count : Nat)
  | glfwSwapBuffers
  | glfwPollEvents
  | glDeleteVertexArrays (array : GLuint)
  | glDeleteBuffers (buffer : GLuint)
  | glDeleteProgram (program : GLuint)
  deriving Repr

/-- Answers of the outside world.  Object names and handles are whatever the
driver returns; `genBuffers k` is the name given by the k-th `glGenBuffers`,
and likewise for the other generators. -/
structure Env where
  glfwInit : Bool
  glfwCreateWindow : Bool
  glewInit : Bool
  glewIsSupported : String → Bool
  genVertexArrays : Nat → GLuint
  genBuffers : Nat → GLuint
  genTextures : Nat → GLuint
  createShader : Nat → GLuint
  createProgram : GLuint
  compile : ShaderSource → ShaderType → Bool
  shaderInfoLog : ShaderSource → ShaderType → String
  link : Bool
  programInfoLog : String
  stbi_load : String → Option Image
  textureHandle : GLuint → GLuint64
  windowShouldClose : Nat → Bool

/-- State of the process: what the libraries hold, and what the program has
written.  `log`, `cerr` and `errors` are histories with the most recent entry
first; `handles` and `draws` are in the order of the calls. -/
structure GLState where
  log : List Call
  cerr : List String
  errors : List GLError
  vertexArraysGenerated : Nat
  buffersGenerated : Nat
  texturesGenerated : Nat
  shadersCreated : Nat
  vertexArrayBinding : GLuint
  bufferBinding : BufferTarget → GLuint
  indexedSSBO : Nat → GLuint
  buffers : GLuint → Option BufferObject
  shaders : GLuint → Option ShaderObject
  programs : GLuint → Option ProgramObject
  currentProgram : GLuint
  textureBinding2D : GLuint
  textures : GLuint → Option TextureObject
  handles : List HandleRecord
  resident : List GLuint64
  draws : List DrawRecord
  polls : Nat

/-- State of the process when `main` is entered. -/
def GLState.initial : GLState :=
  { log := [], cerr := [], errors := [],
    vertexArraysGenerated := 0, buffersGenerated := 0,
    texturesGenerated := 0, shadersCreated := 0,
    vertexArrayBinding := 0,
    bufferBinding := fun _ => 0, indexedSSBO := fun _ => 0,
    buffers := fun _ => none, shaders := fun _ => none,
    programs := fun _ => none, currentProgram := 0,
    textureBinding2D := 0, textures := fun _ => none,
    handles := [], resident := [], draws := [], polls := 0 }

/-! ## Library calls -/

def GLState.call (s : GLState) (c : Call) : GLState :=
  { s with log := c :: s.log }

/-- One `std::cerr << ... << std::endl` statement. -/
def GLState.print (s : GLState) (msg : String) : GLState :=
  { s with cerr := msg :: s.cerr }

def glfwInit (env : Env) (s : GLState) : Bool × GLState :=
  (env.glfwInit, s.call .glfwInit)

/-- The Boolean is `window != NULL`. -/
def glfwCreateWindow (env : Env) (width height : Nat) (title : String)
    (s : GLState) : Bool × GLState :=
  (env.glfwCreateWindow, s.call (.glfwCreateWindow width height title))

def glfwTerminate (s : GLState) : GLState := s.call .glfwTerminate

def glfwMakeContextCurrent (s : GLState) : GLState := s.call .glfwMakeContextCurrent

/-- The Boolean is `glewInit() == GLEW_OK`. -/
def glewInit (env : Env) (s : GLState) : Bool × GLState :=
  (env.glewInit, s.call .glewInit)

def glewIsSupported (env : Env) (name : String) (s : GLState) : Bool × GLState :=
  (env.glewIsSupported name, s.call (.glewIsSupported name))

def glGenVertexArrays (env : Env) (s : GLState) : GLuint × GLState :=
  let name := env.genVertexArrays s.vertexArraysGenerated
  (name, { s.call (.glGenVertexArrays name) with
             vertexArraysGenerated := s.vertexArraysGenerated + 1 })

def glGenBuffers (env : Env) (s : GLState) : GLuint × GLState :=
  let name := env.genBuffers s.buffersGenerated
  (name, { s.call (.glGenBuffers name) with buffersGenerated := s.buffersGenerated + 1 })

def glBindVertexArray (array : GLuint) (s : GLState) : GLState :=
  { s.call (.glBindVertexArray array) with vertexArrayBinding := array }

def glBindBuffer (target : BufferTarget) (buffer : GLuint) (s : GLState) : GLState :=
  { s.call (.glBindBuffer target buffer) with
      bufferBinding := fun t => if t = target then buffer else s.bufferBinding t }

/-- Conversion of a `size_t` value to `GLsizeiptr` (64-bit two's complement). -/
def toGLsizeiptr (n : Nat) : Int :=
  if n % 2 ^ 64 < 2 ^ 63 then ((n % 2 ^ 64 : Nat) : Int) else ((n % 2 ^ 64 : Nat) : Int) - 2 ^ 64

/-- Creates the data store of the buffer bound to `target`: `size` bytes read
from `data`, with the given usage.  A negative size is `GL_INVALID_VALUE` and
leaves the buffer alone. -/
def glBufferData (target : BufferTarget) (size : Int) (data : List Nat)
    (usage : BufferUsage) (s : GLState) : GLState :=
  { s.call (.glBufferData target size usage) with
      errors := if size < 0 then .GL_INVALID_VALUE :: s.errors else s.errors
      buffers := fun b =>
        if size < 0 then s.buffers b
        else if b = s.bufferBinding target then
          some { data := data.take size.toNat, usage := usage }
        else s.buffers b }

def glVertexAttribPointer (index size stride offset : Nat) (s : GLState) : GLState :=
  s.call (.glVertexAttribPointer index size stride offset)

def glEnableVertexAttribArray (index : Nat) (s : GLState) : GLState :=
  s.call (.glEnableVertexAttribArray index)

def glCreateShader (env : Env) (type : ShaderType) (s : GLState) : GLuint × GLState :=
  let name := env.createShader s.shadersCreated
  (name, { s.call (.glCreateShader type name) with
             shadersCreated := s.shadersCreated + 1
             shaders := fun n =>
               if n = name then
                 some { type := type, source := none, compileStatus := false, infoLog := "" }
               else s.shaders n })

def glShaderSource (shader : GLuint) (source : ShaderSource) (s : GLState) : GLState :=
  { s.call (.glShaderSource shader source) with
      shaders := fun n =>
        if n = shader then (s.shaders n).map (fun o => { o with source := some source })
        else s.shaders n }

/-- The driver compiles the source attached to the shader and stores the
status and the information log in the shader object. -/
def glCompileShader (env : Env) (shader : GLuint) (s : GLState) : GLState :=
  { s.call (.glCompileShader shader) with
      shaders := fun n =>
        if n = shader then
          (s.shaders n).map (fun o =>
            match o.source with
            | some src =>
                { o with compileStatus := env.compile src o.type
                         infoLog := env.shaderInfoLog src o.type }
            | none => o)
        else s.shaders n }

/-- Query `glGetShaderiv(shader, GL_COMPILE_STATUS, &success)`. -/
def glGetShaderiv (shader : GLuint) (s : GLState) : Bool × GLState :=
  let success := match s.shaders shader with
    | some o => o.compileStatus
    | none => false
  (success, s.call (.glGetShaderiv shader success))

/-- What an information log query leaves in a buffer of `bufSize` characters,
read back as a C string: the log up to its terminator, cut to the
`bufSize - 1` characters that fit in front of the terminator.  A `Char` of the
log stands for one `GLchar`. -/
def readInfoLog (bufSize : Nat) (log : String) : String :=
  String.mk ((log.data.takeWhile (fun ch => ch != Char.ofNat 0)).take (bufSize - 1))

/-- Call `glGetShaderInfoLog(shader, bufSize, NULL, infoLog)`; the result is the
contents of `infoLog`. -/
def glGetShaderInfoLog (shader : GLuint) (bufSize : Nat) (s : GLState) : String × GLState :=
  let infoLog := match s.shaders shader with
    | some o => readInfoLog bufSize o.infoLog
    | none => ""
  (infoLog, s.call (.glGetShaderInfoLog shader bufSize))

def glCreateProgram (env : Env) (s : GLState) : GLuint × GLState :=
  let name := env.createProgram
  (name, { s.call (.glCreateProgram name) with
             programs := fun n =>
               if n = name then some { attached := [], linkStatus := false, infoLog := "" }
               else s.programs n })

def glAttachShader (program shader : GLuint) (s : GLState) : GLState :=
  { s.call (.glAttachShader program shader) with
      programs := fun n =>
        if n = program then
          (s.programs n).map (fun o => { o with attached := o.attached ++ [shader] })
        else s.programs n }

def glLinkProgram (env : Env) (program : GLuint) (s : GLState) : GLState :=
  { s.call (.glLinkProgram program) with
      programs := fun n =>
        if n = program then
          (s.programs n).map (fun o =>
            { o with linkStatus := env.link, infoLog := env.programInfoLog })
        else s.programs n }

/-- Query `glGetProgramiv(program, GL_LINK_STATUS, &success)`. -/
def glGetProgramiv (program : GLuint) (s : GLState) : Bool × GLState :=
  let success := match s.programs program with
    | some o => o.linkStatus
    | none => false
  (success, s.call (.glGetProgramiv program success))

/-- Call `glGetProgramInfoLog(program, bufSize, NULL, infoLog)`; the result is
the contents of `infoLog`. -/
def glGetProgramInfoLog (program : GLuint) (bufSize : Nat) (s : GLState) : String × GLState :=
  let infoLog := match s.programs program with
    | some o => readInfoLog bufSize o.infoLog
    | none => ""
  (infoLog, s.call (.glGetProgramInfoLog program bufSize))

def glDeleteShader (shader : GLuint) (s : GLState) : GLState :=
  { s.call (.glDeleteShader shader) with
      shaders := fun n => if n = shader then none else s.shaders n }

/-- The Boolean logged is `data != NULL`. -/
def stbi_load (env : Env) (filename : String) (s : GLState) : Option Image × GLState :=
  (env.stbi_load filename, s.call (.stbi_load filename (env.stbi_load filename).isSome))

def stbi_image_free (s : GLState) : GLState := s.call .stbi_image_free

def glGenTextures (env : Env) (s : GLState) : GLuint × GLState :=
  let name := env.genTextures s.texturesGenerated
  (name, { s.call (.glGenTextures name) with texturesGenerated := s.texturesGenerated + 1 })

/-- Call `glBindTexture(GL_TEXTURE_2D, texture)`; a name bound for the first
time gets a texture object in its default state. -/
def glBindTexture (texture : GLuint) (s : GLState) : GLState :=
  { s.call (.glBindTexture texture) with
      textureBinding2D := texture
      textures := fun n =>
        if n = texture then some ((s.textures n).getD TextureObject.fresh)
        else s.textures n }

/-- Applies `f` to the texture object bound to `GL_TEXTURE_2D`. -/
def GLState.modifyBoundTexture (s : GLState) (f : TextureObject → TextureObject) : GLState :=
  { s with
      textures := fun n =>
        if n = s.textureBinding2D then some (f ((s.textures n).getD TextureObject.fresh))
        else s.textures n }

def TextureObject.setParameter (t : TextureObject) (pname : TexParameter) (param : TexValue) :
    TextureObject :=
  match pname with
  | .GL_TEXTURE_WRAP_S => { t with wrapS := param }
  | .GL_TEXTURE_WRAP_T => { t with wrapT := param }
  | .GL_TEXTURE_MIN_FILTER => { t with minFilter := param }
  | .GL_TEXTURE_MAG_FILTER => { t with magFilter := param }

/-- Call `glTexParameteri(GL_TEXTURE_2D, pname, param)`. -/
def glTexParameteri (pname : TexParameter) (param : TexValue) (s : GLState) : GLState :=
  (s.call (.glTexParameteri pname param)).modifyBoundTexture
    (fun t => t.setParameter pname param)

/-- Call `glTexImage2D(GL_TEXTURE_2D, 0, GL_RGB, width, height, 0, GL_RGB,
GL_UNSIGNED_BYTE, data)`: replaces level 0; a chain generated from an earlier
level 0 no longer belongs to it. -/
def glTexImage2D (width height : Nat) (data : List Nat) (s : GLState) : GLState :=
  (s.call (.glTexImage2D width height)).modifyBoundTexture
    (fun t => { t with image := some { width := width, height := height, pixels := data }
                       mipmapChain := false })

/-- Call `glGenerateMipmap(GL_TEXTURE_2D)`: derives levels 1.. from level 0,
when there is a level 0. -/
def glGenerateMipmap (s : GLState) : GLState :=
  (s.call .glGenerateMipmap).modifyBoundTexture
    (fun t => { t with mipmapChain := t.image.isSome })

/-- The driver returns its handle for the texture, a 64-bit value. -/
def glGetTextureHandleARB (env : Env) (texture : GLuint) (s : GLState) : GLuint64 × GLState :=
  let handle := env.textureHandle texture % 2 ^ 64
  (handle, { s.call (.glGetTextureHandleARB texture handle) with
               handles := s.handles ++
                 [{ handle := handle, texture := texture,
                    state := (s.textures texture).getD TextureObject.fresh }] })

def glIsTextureHandleResidentARB (handle : GLuint64) (s : GLState) : Bool × GLState :=
  let r := decide (handle ∈ s.resident)
  (r, s.call (.glIsTextureHandleResidentARB handle r))

/-- Makes the handle resident; `GL_INVALID_OPERATION` when it already is. -/
def glMakeTextureHandleResidentARB (handle : GLuint64) (s : GLState) : GLState :=
  { s.call (.glMakeTextureHandleResidentARB handle) with
      errors := if handle ∈ s.resident then .GL_INVALID_OPERATION :: s.errors else s.errors
      resident := if handle ∈ s.resident then s.resident else handle :: s.resident }

/-- The answer depends on the events processed so far. -/
def glfwWindowShouldClose (env : Env) (s : GLState) : Bool × GLState :=
  let r := env.windowShouldClose s.polls
  (r, s.call (.glfwWindowShouldClose r))

def glClear (s : GLState) : GLState := s.call .glClear

def glUseProgram (program : GLuint) (s : GLState) : GLState :=
  { s.call (.glUseProgram program) with currentProgram := program }

/-- Call `glBindBufferBase(GL_SHADER_STORAGE_BUFFER, index, buffer)`: binds the
buffer to the indexed binding point and to the generic one of the target. -/
def glBindBufferBase (index : Nat) (buffer : GLuint) (s : GLState) : GLState :=
  { s.call (.glBindBufferBase .GL_SHADER_STORAGE_BUFFER index buffer) with
      indexedSSBO := fun i => if i = index then buffer else s.indexedSSBO i
      bufferBinding := fun t =>
        if t = .GL_SHADER_STORAGE_BUFFER then buffer else s.bufferBinding t }

def glfwSwapBuffers (s : GLState) : GLState := s.call .glfwSwapBuffers

def glfwPollEvents (s : GLState) : GLState :=
  { s.call .glfwPollEvents with polls := s.polls + 1 }

def glDeleteVertexArrays (array : GLuint) (s : GLState) : GLState :=
  s.call (.glDeleteVertexArrays array)

def glDeleteBuffers (buffer : GLuint) (s : GLState) : GLState :=
  { s.call (.glDeleteBuffers buffer) with
      buffers := fun b => if b = buffer then none else s.buffers b }

def glDeleteProgram (program : GLuint) (s : GLState) : GLState :=
  { s.call (.glDeleteProgram program) with
      programs := fun n => if n = program then none else s.programs n }

/-! ## The fragment shader (main.cpp lines 28-59) -/

namespace FragmentShader

/-- Shader-side `#define BINDING_POINT_TEXTURE_SSBO 2` (line 36). -/
def BINDING_POINT_TEXTURE_SSBO : Nat := 2

/-- Value of an unsigned integer stored least significant byte first. -/
def littleEndian : List Nat → Nat
  | [] => 0
  | b :: bs => b + 256 * littleEndian bs

/-- Element `i` of `texture_handle_t TextureSSBO[]` in the std430 block
`TextureBlock` backed by `block`: the `uint64_t` at byte offset `8 * i`, and
no value when the element lies outside the buffer. -/
def TextureSSBO (block : List Nat) (i : Nat) : Option GLuint64 :=
  if 8 * i + 8 ≤ block.length then some (littleEndian ((block.drop (8 * i)).take 8))
  else none

/-- Shader function `GetCurrentTextureHandle` (lines 47-50). -/
def GetCurrentTextureHandle (block : List Nat) : Option GLuint64 :=
  TextureSSBO block 4

/-- GLSL conversion `uint(x)` of a 64-bit value: the low 32 bits. -/
def uint (x : Nat) : Nat := x % 2 ^ 32

/-- Line 55: `uvec2(uint(handle), uint(handle >> 32))`. -/
def uvechandle (handle : GLuint64) : Nat × Nat :=
  (uint handle, uint (handle >>> 32))

/-- Shader `main` up to the sampler construction (lines 54-56): the pair of
words the sampler is constructed from. -/
def main (block : List Nat) : Option (Nat × Nat) :=
  (GetCurrentTextureHandle block).map uvechandle

end FragmentShader

/-- Call `glDrawElements(GL_TRIANGLES, count, GL_UNSIGNED_INT, 0)`: the
fragment shader runs against the buffer bound at its declared binding point. -/
def glDrawElements (count : Nat) (s : GLState) : GLState :=
  let ssbo := s.indexedSSBO FragmentShader.BINDING_POINT_TEXTURE_SSBO
  { s.call (.glDrawElements count) with
      draws := s.draws ++
        [{ program := s.currentProgram, vao := s.vertexArrayBinding,
           ssbo := ssbo, ssboContents := (s.buffers ssbo).map (fun b => b.data) }] }

/-! ## The host program (main.cpp lines 61-260) -/

/-- Bytes of an unsigned integer `width` bytes wide, as it lies in memory. -/
def bytesOf (width : Nat) (v : Nat) : List Nat :=
  (List.range width).map (fun k => v / 256 ^ k % 256)

/-- Memory behind `textureHandles.data()`: the elements of the vector one
after the other. -/
def memoryOfHandles (textureHandles : List GLuint64) : List Nat :=
  textureHandles.flatMap (bytesOf sizeof_GLuint64)

/-- Array `vertices` (lines 124-130) as the bit patterns of its 20 floats:
`-0.5f`, `0.5f`, `0.0f` and `1.0f` are `0xBF000000`, `0x3F000000`, `0` and
`0x3F800000`. -/
def vertices : List Nat :=
  [0xBF000000, 0xBF000000, 0, 0, 0,
   0x3F000000, 0xBF000000, 0, 0x3F800000, 0,
   0x3F000000, 0x3F000000, 0, 0x3F800000, 0x3F800000,
   0xBF000000, 0x3F000000, 0, 0, 0x3F800000]

/-- Array `indices` (lines 132-135). -/
def indices : List Nat := [0, 1, 2, 2, 3, 0]

/-- Array `textureName` (line 187). -/
def textureName : List String :=
  ["Aatrox.png", "Ahri.png", "Akali.png", "Akshan.png", "Yuumi.png"]

/-- Function `compileShader` (lines 62-78). -/
def compileShader (env : Env) (shaderSource : ShaderSource) (shaderType : ShaderType)
    (s : GLState) : GLuint × GLState :=
  let (shader, s) := glCreateShader env shaderType s
  let s := glShaderSource shader shaderSource s
  let s := glCompileShader env shader s
  let (success, s) := glGetShaderiv shader s
  if !success then
    let (infoLog, s) := glGetShaderInfoLog shader 512 s
    let s := s.print ("Shader compilation error:\n" ++ infoLog)
    (shader, s)
  else
    (shader, s)

/-- Body of the load loop after a successful `stbi_load` (lines 201-222):
creates the texture for the decoded image and returns `textureHandle`. -/
def acquireHandle (env : Env) (img : Image) (s : GLState) : GLuint64 × GLState :=
  let (texture, s) := glGenTextures env s
  let s := glBindTexture texture s
  let s := glTexParameteri .GL_TEXTURE_WRAP_S .GL_REPEAT s
  let s := glTexParameteri .GL_TEXTURE_WRAP_T .GL_REPEAT s
  let s := glTexParameteri .GL_TEXTURE_MIN_FILTER .GL_LINEAR s
  let s := glTexParameteri .GL_TEXTURE_MAG_FILTER .GL_LINEAR s
  let s := glTexImage2D img.width img.height img.data s
  let s := glGenerateMipmap s
  let s := stbi_image_free s
  let (textureHandle, s) := glGetTextureHandleARB env texture s
  let (resident, s) := glIsTextureHandleResidentARB textureHandle s
  if !resident then
    (textureHandle, glMakeTextureHandleResidentARB textureHandle s)
  else
    (textureHandle, s)

/-- The load loop (lines 190-224) over the remaining file names, with the
vector `textureHandles` built so far.  `Except.error` is the `return -1` of
line 198, with the state at that point. -/
def loadLoop (env : Env) : List String → List GLuint64 → GLState →
    Except GLState (List GLuint64 × GLState)
  | [], textureHandles, s => .ok (textureHandles, s)
  | name :: rest, textureHandles, s =>
    let (data, s) := stbi_load env name s
    match data with
    | none => .error (s.print "Failed to load texture")
    | some img =>
      let (textureHandle, s) := acquireHandle env img s
      loadLoop env rest (textureHandles ++ [textureHandle]) s

/-- Lines 226-230: creation of `TextureSSBO` from the vector. -/
def createTextureSSBO (env : Env) (textureHandles : List GLuint64) (s : GLState) :
    GLuint × GLState :=
  let (TextureSSBO, s) := glGenBuffers env s
  let s := glBindBuffer .GL_SHADER_STORAGE_BUFFER TextureSSBO s
  let s := glBufferData .GL_SHADER_STORAGE_BUFFER
    (toGLsizeiptr (sizeof_GLuint64 * textureHandles.length % 2 ^ 64))
    (memoryOfHandles textureHandles) .GL_STATIC_DRAW s
  let s := glBindBuffer .GL_SHADER_STORAGE_BUFFER 0 s
  (TextureSSBO, s)

/-- Locals of `main` that are live when the frame loop starts. -/
structure Setup where
  VAO : GLuint
  VBO : GLuint
  EBO : GLuint
  program : GLuint
  textureHandles : List GLuint64
  TextureSSBO : GLuint
  deriving DecidableEq, Repr

/-- Lines 138-159: vertex array and the two geometry buffers. -/
def createGeometry (env : Env) (s : GLState) : (GLuint × GLuint × GLuint) × GLState :=
  let (VAO, s) := glGenVertexArrays env s
  let (VBO, s) := glGenBuffers env s
  let (EBO, s) := glGenBuffers env s
  let s := glBindVertexArray VAO s
  let s := glBindBuffer .GL_ARRAY_BUFFER VBO s
  let s := glBufferData .GL_ARRAY_BUFFER (toGLsizeiptr (4 * vertices.length))
    (vertices.flatMap (bytesOf 4)) .GL_STATIC_DRAW s
  let s := glBindBuffer .GL_ELEMENT_ARRAY_BUFFER EBO s
  let s := glBufferData .GL_ELEMENT_ARRAY_BUFFER (toGLsizeiptr (4 * indices.length))
    (indices.flatMap (bytesOf 4)) .GL_STATIC_DRAW s
  let s := glVertexAttribPointer 0 3 (5 * 4) 0 s
  let s := glEnableVertexAttribArray 0 s
  let s := glVertexAttribPointer 1 2 (5 * 4) (3 * 4) s
  let s := glEnableVertexAttribArray 1 s
  let s := glBindVertexArray 0 s
  ((VAO, VBO, EBO), s)

/-- Lines 163-185: both shaders, the program, the link check. -/
def createProgram (env : Env) (s : GLState) : GLuint × GLState :=
  let (vertexShader, s) := compileShader env .vertexShaderSource .GL_VERTEX_SHADER s
  let (fragmentShader, s) := compileShader env .fragmentShaderSource .GL_FRAGMENT_SHADER s
  let (program, s) := glCreateProgram env s
  let s := glAttachShader program vertexShader s
  let s := glAttachShader program fragmentShader s
  let s := glLinkProgram env program s
  let (success, s) := glGetProgramiv program s
  let s := if !success then
      let (infoLog, s) := glGetProgramInfoLog program 512 s
      s.print ("Program linking error:\n" ++ infoLog)
    else s
  let s := glDeleteShader vertexShader s
  let s := glDeleteShader fragmentShader s
  (program, s)

/-- Function `main` up to the frame loop (lines 83-230).  `Except.error` is a
`return -1`, with the state at that point. -/
def startup (env : Env) : Except GLState (Setup × GLState) :=
  let s := GLState.initial
  let (ok, s) := glfwInit env s
  if !ok then .error (s.print "Failed to initialize GLFW")
  else
  let (window, s) := glfwCreateWindow env 800 600 "Bindless Texture Example" s
  if !window then .error (glfwTerminate (s.print "Failed to create GLFW window"))
  else
  let s := glfwMakeContextCurrent s
  let (ok, s) := glewInit env s
  if !ok then .error (s.print "Failed to initialize GLEW")
  else
  let (supported, s) := glewIsSupported env "GL_ARB_bindless_texture" s
  if !supported then .error (s.print "GL_ARB_bindless_texture not supported")
  else
  let (supported, s) := glewIsSupported env "GL_ARB_gpu_shader_int64" s
  if !supported then .error (s.print "GL_ARB_gpu_shader_int64 not supported")
  else
  let ((VAO, VBO, EBO), s) := createGeometry env s
  let (program, s) := createProgram env s
  match loadLoop env textureName [] s with
  | .error s => .error s
  | .ok (textureHandles, s) =>
    let (TextureSSBO, s) := createTextureSSBO env textureHandles s
    .ok ({ VAO := VAO, VBO := VBO, EBO := EBO, program := program,
           textureHandles := textureHandles, TextureSSBO := TextureSSBO }, s)

/-- One pass through the body of the frame loop (lines 235-249). -/
def frame (c : Setup) (s : GLState) : GLState :=
  let s := glClear s
  let s := glUseProgram c.program s
  let s := glBindBufferBase BINDING_POINT_TEXTURE_SSBO c.TextureSSBO s
  let s := glBindVertexArray c.VAO s
  let s := glDrawElements 6 s
  let s := glfwSwapBuffers s
  glfwPollEvents s

/-- The frame loop (lines 233-250), for at most `fuel` evaluations of its
condition.  The Boolean tells whether the loop was left (the window was asked
to close); when it is `false` the state is the one reached when the fuel ran
out, with the loop still running. -/
def frameLoop (env : Env) (c : Setup) : Nat → GLState → Bool × GLState
  | 0, s => (false, s)
  | fuel + 1, s =>
    let (close, s) := glfwWindowShouldClose env s
    if !close then frameLoop env c fuel (frame c s)
    else (true, s)

/-- Lines 252-259. -/
def cleanup (c : Setup) (s : GLState) : GLState :=
  let s := glDeleteVertexArrays c.VAO s
  let s := glDeleteBuffers c.VBO s
  let s := glDeleteProgram c.program s
  glfwTerminate s

/-- How far a run got: `main` returned `code`, or the frame loop was still
running when the fuel ran out. -/
inductive Outcome where
  | returned (code : Int) (s : GLState)
  | running (s : GLState)

def Outcome.state : Outcome → GLState
  | .returned _ s => s
  | .running s => s

/-- Function `main` (lines 81-260). -/
def main (env : Env) (fuel : Nat) : Outcome :=
  match startup env with
  | .error s => .returned (-1) s
  | .ok (c, s) =>
    match frameLoop env c fuel s with
    | (false, s) => .running s
    | (true, s) => .returned 0 (cleanup c s)

/-! ## Vocabulary of the statements -/

/-- Level 0 of a texture that holds the decoded image. -/
def Image.toTexImage (img : Image) : TexImage :=
  { width := img.width, height := img.height, pixels := img.data }

/-- Number of `glMakeTextureHandleResidentARB(h)` calls in a log. -/
def residencyRequests (h : GLuint64) (log : List Call) : Nat :=
  log.countP (fun c => match c with
    | .glMakeTextureHandleResidentARB h' => h' == h
    | _ => false)

/-- Calls that create the data store of a shader storage buffer or bind a
buffer to a shader storage binding point. -/
def Call.buildsHandleBuffer : Call → Bool
  | .glBufferData .GL_SHADER_STORAGE_BUFFER _ _ => true
  | .glBindBuffer .GL_SHADER_STORAGE_BUFFER _ => true
  | .glBindBufferBase _ _ _ => true
  | _ => false

/-- Calls that main.cpp makes only inside the frame loop (lines 233-250). -/
def Call.inFrameLoop : Call → Bool
  | .glfwWindowShouldClose _ => true
  | .glClear => true
  | .glUseProgram _ => true
  | .glBindBufferBase _ _ _ => true
  | .glDrawElements _ => true
  | .glfwSwapBuffers => true
  | .glfwPollEvents => true
  | _ => false

def Call.isDraw : Call → Bool
  | .glDrawElements _ => true
  | _ => false

/-- Calls that create a texture object or give it contents. -/
def Call.createsTexture : Call → Bool
  | .glGenTextures _ => true
  | .glBindTexture _ => true
  | .glTexParameteri _ _ => true
  | .glTexImage2D _ _ => true
  | .glGenerateMipmap => true
  | _ => false

def Call.acquiresHandle : Call → Bool
  | .glGetTextureHandleARB _ _ => true
  | _ => false

/-- State in which the load loop ends, on either exit. -/
def loopState : Except GLState (List GLuint64 × GLState) → GLState
  | .error s => s
  | .ok (_, s) => s

/-- Handle that the next pass of the load loop body obtains. -/
def handleOf (env : Env) (s : GLState) : GLuint64 :=
  env.textureHandle (env.genTextures s.texturesGenerated) % 2 ^ 64

/-- State of the load loop body right before `glGetTextureHandleARB` (line 218). -/
def textured (env : Env) (img : Image) (s : GLState) : GLState :=
  stbi_image_free (glGenerateMipmap (glTexImage2D img.width img.height img.data
    (glTexParameteri .GL_TEXTURE_MAG_FILTER .GL_LINEAR
      (glTexParameteri .GL_TEXTURE_MIN_FILTER .GL_LINEAR
        (glTexParameteri .GL_TEXTURE_WRAP_T .GL_REPEAT
          (glTexParameteri .GL_TEXTURE_WRAP_S .GL_REPEAT
            (glBindTexture (env.genTextures s.texturesGenerated)
              (glGenTextures env s).2)))))))

/-- State of the load loop body right after `glIsTextureHandleResidentARB` (line 219). -/
def checked (env : Env) (img : Image) (s : GLState) : GLState :=
  (glIsTextureHandleResidentARB (handleOf env s)
    (glGetTextureHandleARB env (env.genTextures s.texturesGenerated) (textured env img s)).2).2

/-- Calls of one pass of the load loop body up to the residency check, most
recent first. -/
def checkedCalls (env : Env) (img : Image) (s : GLState) : List Call :=
  [.glIsTextureHandleResidentARB (handleOf env s) (decide (handleOf env s ∈ s.resident)),
   .glGetTextureHandleARB (env.genTextures s.texturesGenerated) (handleOf env s),
   .stbi_image_free,
   .glGenerateMipmap,
   .glTexImage2D img.width img.height,
   .glTexParameteri .GL_TEXTURE_MAG_FILTER .GL_LINEAR,
   .glTexParameteri .GL_TEXTURE_MIN_FILTER .GL_LINEAR,
   .glTexParameteri .GL_TEXTURE_WRAP_T .GL_REPEAT,
   .glTexParameteri .GL_TEXTURE_WRAP_S .GL_REPEAT,
   .glBindTexture (env.genTextures s.texturesGenerated),
   .glGenTextures (env.genTextures s.texturesGenerated)]

/-- State of `compileShader` right after `glGetShaderiv` (line 69). -/
def compiled (env : Env) (shaderSource : ShaderSource) (shaderType : ShaderType)
    (s : GLState) : GLState :=
  (glGetShaderiv (env.createShader s.shadersCreated)
    (glCompileShader env (env.createShader s.shadersCreated)
      (glShaderSource (env.createShader s.shadersCreated) shaderSource
        (glCreateShader env shaderType s).2))).2

/-- Calls of `compileShader`, most recent first. -/
def compileCalls (env : Env) (shaderSource : ShaderSource) (shaderType : ShaderType)
    (s : GLState) : List Call :=
  (if env.compile shaderSource shaderType then []
   else [Call.glGetShaderInfoLog (env.createShader s.shadersCreated) 512]) ++
  [.glGetShaderiv (env.createShader s.shadersCreated) (env.compile shaderSource shaderType),
   .glCompileShader (env.createShader s.shadersCreated),
   .glShaderSource (env.createShader s.shadersCreated) shaderSource,
   .glCreateShader shaderType (env.createShader s.shadersCreated)]

/-- What `compileShader` writes to `std::cerr`. -/
def compileDiagnostics (env : Env) (shaderSource : ShaderSource) (shaderType : ShaderType) :
    List String :=
  if env.compile shaderSource shaderType then []
  else ["Shader compilation error:\n" ++
    readInfoLog 512 (env.shaderInfoLog shaderSource shaderType)]

/-- What the link check (lines 174-181) writes to `std::cerr`. -/
def linkDiagnostics (env : Env) : List String :=
  if env.link then [] else ["Program linking error:\n" ++ readInfoLog 512 env.programInfoLog]

/-- State of `createProgram` right after `glGetProgramiv` (line 175). -/
def linked (env : Env) (vertexShader fragmentShader : GLuint) (s : GLState) : GLState :=
  (glGetProgramiv env.createProgram
    (glLinkProgram env env.createProgram
      (glAttachShader env.createProgram fragmentShader
        (glAttachShader env.createProgram vertexShader
          (glCreateProgram env s).2)))).2

/-- State of `main` after the last capability check (line 121), in a run that
passes every check up to there. -/
def contextState (env : Env) : GLState :=
  (glewIsSupported env "GL_ARB_gpu_shader_int64"
    (glewIsSupported env "GL_ARB_bindless_texture"
      (glewInit env
        (glfwMakeContextCurrent
          (glfwCreateWindow env 800 600 "Bindless Texture Example"
            (glfwInit env GLState.initial).2).2)).2).2).2

/-- State of `main` when the load loop starts (line 190). -/
def preLoop (env : Env) : GLState :=
  (createProgram env (createGeometry env (contextState env)).2).2

/-- Every check of lines 84-121 passes. -/
def Env.contextReady (env : Env) : Prop :=
  env.glfwInit = true ∧ env.glfwCreateWindow = true ∧ env.glewInit = true ∧
  env.glewIsSupported "GL_ARB_bindless_texture" = true ∧
  env.glewIsSupported "GL_ARB_gpu_shader_int64" = true

/-- Calls of one pass of the frame loop, condition included, most recent first. -/
def frameCalls (c : Setup) : List Call :=
  [.glfwPollEvents,
   .glfwSwapBuffers,
   .glDrawElements 6,
   .glBindVertexArray c.VAO,
   .glBindBufferBase .GL_SHADER_STORAGE_BUFFER 2 c.TextureSSBO,
   .glUseProgram c.program,
   .glClear,
   .glfwWindowShouldClose false]

/-- Nothing of the handle buffer or of the frame loop has happened yet. -/
def Unpublished (s : GLState) : Prop :=
  (∀ c ∈ s.log, c.buildsHandleBuffer = false ∧ c.inFrameLoop = false) ∧
  s.draws = [] ∧ s.polls = 0 ∧
  s.indexedSSBO FragmentShader.BINDING_POINT_TEXTURE_SSBO = 0 ∧
  s.bufferBinding .GL_SHADER_STORAGE_BUFFER = 0

/-- The record is what a pass of the load loop body leaves for the file `name`:
the handle is the one the driver has for the record's texture, and the
texture holds the decoded image and the state set in lines 205-213. -/
def AcquiredFor (env : Env) (name : String) (r : HandleRecord) : Prop :=
  ∃ img, env.stbi_load name = some img ∧
    r.handle = env.textureHandle r.texture % 2 ^ 64 ∧
    r.state = { wrapS := .GL_REPEAT, wrapT := .GL_REPEAT,
                minFilter := .GL_LINEAR, magFilter := .GL_LINEAR,
                image := some img.toTexImage, mipmapChain := true }

/-! ## Example environments -/

def exampleImage : Image :=
  { width := 1, height := 1, nrChannels := 3, data := [255, 128, 0] }

/-- Everything succeeds; the window is closed after two frames. -/
def exampleEnv : Env :=
  { glfwInit := true, glfwCreateWindow := true, glewInit := true,
    glewIsSupported := fun _ => true,
    genVertexArrays := fun k => k + 1, genBuffers := fun k => k + 1,
    genTextures := fun k => k + 1, createShader := fun k => k + 1, createProgram := 3,
    compile := fun _ _ => true, shaderInfoLog := fun _ _ => "", link := true,
    programInfoLog := "", stbi_load := fun _ => some exampleImage,
    textureHandle := fun t => 4294967296 * t + 7,
    windowShouldClose := fun k => decide (2 ≤ k) }

/-- As `exampleEnv`, on a driver that rejects both shaders, so that the
program does not link either. -/
def brokenShaderEnv : Env :=
  { exampleEnv with
      compile := fun _ _ => false
      shaderInfoLog := fun _ _ => "0(2) : error C0201: unsupported version 460"
      link := false
      programInfoLog := "Link failed: attached shaders are not compiled" }

/-- As `brokenShaderEnv`, with information logs of 600 characters. -/
def longLogEnv : Env :=
  { brokenShaderEnv with
      shaderInfoLog := fun _ _ => String.mk (List.replicate 600 (Char.ofNat 101))
      programInfoLog := String.mk (List.replicate 600 (Char.ofNat 108)) }

/-- Result of `startup exampleEnv`. -/
def exampleStart : Setup × GLState :=
  match startup exampleEnv with
  | .ok r => r
  | .error s => ({ VAO := 0, VBO := 0, EBO := 0, program := 0, textureHandles := [],
                   TextureSSBO := 0 }, s)

/-- As `exampleEnv`, but the third image of the list cannot be decoded. -/
def missingImageEnv : Env :=
  { exampleEnv with
      stbi_load := fun n => if n = "Akali.png" then none else some exampleImage }

/-- As `exampleEnv`, on a GPU without 64-bit shader integers. -/
def noInt64Env : Env :=
  { exampleEnv with
      glewIsSupported := fun e => decide (e = "GL_ARB_bindless_texture") }

/-! ## Byte layout of the handle table -/

theorem bytesOf_eight (v : Nat) :
    bytesOf 8 v = [v % 256, v / 256 % 256, v / 256 ^ 2 % 256, v / 256 ^ 3 % 256,
      v / 256 ^ 4 % 256, v / 256 ^ 5 % 256, v / 256 ^ 6 % 256, v / 256 ^ 7 % 256] := by
  simp [bytesOf, List.range, List.range.loop]

theorem littleEndian_bytesOf_eight (v : Nat) :
    FragmentShader.littleEndian (bytesOf 8 v) = v % 2 ^ 64 := by
  rw [bytesOf_eight]
  simp only [FragmentShader.littleEndian]
  omega

theorem length_bytesOf (w v : Nat) : (bytesOf w v).length = w := by
  simp [bytesOf]

theorem memoryOfHandles_cons (h : GLuint64) (t : List GLuint64) :
    memoryOfHandles (h :: t) = bytesOf 8 h ++ memoryOfHandles t := by
  simp [memoryOfHandles, sizeof_GLuint64]

theorem length_memoryOfHandles (t : List GLuint64) :
    (memoryOfHandles t).length = 8 * t.length := by
  induction t with
  | nil => rfl
  | cons h t ih =>
    rw [memoryOfHandles_cons, List.length_append, length_bytesOf, ih, List.length_cons]
    omega

theorem TextureSSBO_memoryOfHandles (t : List GLuint64) (i : Nat) (hi : i < t.length) :
    FragmentShader.TextureSSBO (memoryOfHandles t) i = some (t[i] % 2 ^ 64) := by
  induction t generalizing i with
  | nil => simp at hi
  | cons h t ih =>
    have hlen := length_memoryOfHandles (h :: t)
    rw [List.length_cons] at hlen
    cases i with
    | zero =>
      have hle : 8 * 0 + 8 ≤ (memoryOfHandles (h :: t)).length := by omega
      rw [FragmentShader.TextureSSBO, if_pos hle, memoryOfHandles_cons, Nat.mul_zero, List.drop_zero,
        List.take_left' (length_bytesOf 8 h), littleEndian_bytesOf_eight]
      rfl
    | succ j =>
      have hj : j < t.length := by simpa using hi
      have ih' := ih j hj
      have hlen' := length_memoryOfHandles t
      have h1 : 8 * j + 8 ≤ (memoryOfHandles t).length := by omega
      have h2 : 8 * (j + 1) + 8 ≤ (memoryOfHandles (h :: t)).length := by omega
      rw [FragmentShader.TextureSSBO, if_pos h1] at ih'
      rw [FragmentShader.TextureSSBO, if_pos h2, memoryOfHandles_cons,
        show 8 * (j + 1) = (bytesOf 8 h).length + 8 * j by rw [length_bytesOf]; omega,
        List.drop_append, ih']
      rfl

theorem toGLsizeiptr_of_lt (n : Nat) (h : n < 2 ^ 63) : toGLsizeiptr n = (n : Int) := by
  have h1 : n % 2 ^ 64 = n := Nat.mod_eq_of_lt (by omega)
  rw [toGLsizeiptr, h1, if_pos h]

/-! ## One pass of the load loop body -/

theorem acquireHandle_eq (env : Env) (img : Image) (s : GLState) :
    acquireHandle env img s =
      if !decide (handleOf env s ∈ s.resident) then
        (handleOf env s, glMakeTextureHandleResidentARB (handleOf env s) (checked env img s))
      else
        (handleOf env s, checked env img s) :=
  rfl

theorem acquireHandle_fst (env : Env) (img : Image) (s : GLState) :
    (acquireHandle env img s).1 = handleOf env s := by
  rw [acquireHandle_eq]
  split <;> rfl

theorem modifyBoundTexture_at (s : GLState) (f : TextureObject → TextureObject)
    (c : Call) (t : GLuint) (o : TextureObject)
    (hb : s.textureBinding2D = t) (ht : s.textures t = some o) :
    ((s.call c).modifyBoundTexture f).textureBinding2D = t ∧
    ((s.call c).modifyBoundTexture f).textures t = some (f o) := by
  subst hb
  simp [GLState.modifyBoundTexture, GLState.call, ht]

theorem glBindTexture_at (t : GLuint) (s : GLState) :
    (glBindTexture t s).textureBinding2D = t ∧
    (glBindTexture t s).textures t = some ((s.textures t).getD TextureObject.fresh) := by
  simp [glBindTexture]

theorem textured_texture (env : Env) (img : Image) (s : GLState) :
    (textured env img s).textures (env.genTextures s.texturesGenerated)
      = some { wrapS := .GL_REPEAT, wrapT := .GL_REPEAT,
               minFilter := .GL_LINEAR, magFilter := .GL_LINEAR,
               image := some img.toTexImage, mipmapChain := true } := by
  have h0 := glBindTexture_at (env.genTextures s.texturesGenerated) (glGenTextures env s).2
  have h1 := modifyBoundTexture_at _ (fun t => t.setParameter .GL_TEXTURE_WRAP_S .GL_REPEAT)
    (.glTexParameteri .GL_TEXTURE_WRAP_S .GL_REPEAT) _ _ h0.1 h0.2
  have h2 := modifyBoundTexture_at _ (fun t => t.setParameter .GL_TEXTURE_WRAP_T .GL_REPEAT)
    (.glTexParameteri .GL_TEXTURE_WRAP_T .GL_REPEAT) _ _ h1.1 h1.2
  have h3 := modifyBoundTexture_at _ (fun t => t.setParameter .GL_TEXTURE_MIN_FILTER .GL_LINEAR)
    (.glTexParameteri .GL_TEXTURE_MIN_FILTER .GL_LINEAR) _ _ h2.1 h2.2
  have h4 := modifyBoundTexture_at _ (fun t => t.setParameter .GL_TEXTURE_MAG_FILTER .GL_LINEAR)
    (.glTexParameteri .GL_TEXTURE_MAG_FILTER .GL_LINEAR) _ _ h3.1 h3.2
  have h5 := modifyBoundTexture_at _
    (fun t => { t with image := some { width := img.width, height := img.height,
                                       pixels := img.data }
                       mipmapChain := false })
    (.glTexImage2D img.width img.height) _ _ h4.1 h4.2
  have h6 := modifyBoundTexture_at _ (fun t => { t with mipmapChain := t.image.isSome })
    .glGenerateMipmap _ _ h5.1 h5.2
  exact h6.2

theorem acquireHandle_handles (env : Env) (img : Image) (s : GLState) :
    (acquireHandle env img s).2.handles = s.handles ++
      [{ handle := handleOf env s,
         texture := env.genTextures s.texturesGenerated,
         state := { wrapS := .GL_REPEAT, wrapT := .GL_REPEAT,
                    minFilter := .GL_LINEAR, magFilter := .GL_LINEAR,
                    image := some img.toTexImage, mipmapChain := true } }] := by
  have h : (acquireHandle env img s).2.handles = s.handles ++
      [{ handle := handleOf env s,
         texture := env.genTextures s.texturesGenerated,
         state := ((textured env img s).textures (env.genTextures s.texturesGenerated)).getD
           TextureObject.fresh }] := by
    rw [acquireHandle_eq]
    split <;> rfl
  rw [h, textured_texture]
  rfl

theorem acquireHandle_resident (env : Env) (img : Image) (s : GLState) :
    (acquireHandle env img s).2.resident =
      if handleOf env s ∈ s.resident then s.resident else handleOf env s :: s.resident := by
  rw [acquireHandle_eq]
  by_cases h : handleOf env s ∈ s.resident
  · simp only [h, decide_True, Bool.not_true, if_true]
    rfl
  · simp only [h, decide_False, Bool.not_false, if_true, if_false]
    show (if handleOf env s ∈ s.resident then s.resident else handleOf env s :: s.resident) = _
    rw [if_neg h]

theorem acquireHandle_errors (env : Env) (img : Image) (s : GLState) :
    (acquireHandle env img s).2.errors = s.errors := by
  rw [acquireHandle_eq]
  by_cases h : handleOf env s ∈ s.resident
  · simp only [h, decide_True, Bool.not_true, if_true]
    rfl
  · simp only [h, decide_False, Bool.not_false, if_true, if_false]
    show (if handleOf env s ∈ s.resident then _ else s.errors) = _
    rw [if_neg h]

theorem acquireHandle_log (env : Env) (img : Image) (s : GLState) :
    (acquireHandle env img s).2.log =
      (if handleOf env s ∈ s.resident then []
       else [Call.glMakeTextureHandleResidentARB (handleOf env s)])
      ++ checkedCalls env img s ++ s.log := by
  rw [acquireHandle_eq]
  by_cases hr : handleOf env s ∈ s.resident
  · simp only [hr, decide_True, Bool.not_true, if_true]
    rfl
  · simp only [hr, decide_False, Bool.not_false, if_true, if_false]
    rfl

theorem residencyRequests_append (h : GLuint64) (l₁ l₂ : List Call) :
    residencyRequests h (l₁ ++ l₂) = residencyRequests h l₁ + residencyRequests h l₂ := by
  simp [residencyRequests, List.countP_append]

theorem residencyRequests_checkedCalls (env : Env) (img : Image) (s : GLState) (h : GLuint64) :
    residencyRequests h (checkedCalls env img s) = 0 := by
  simp [residencyRequests, checkedCalls, List.countP_cons]

theorem acquireHandle_requests (env : Env) (img : Image) (s : GLState) (h : GLuint64) :
    residencyRequests h (acquireHandle env img s).2.log =
      residencyRequests h s.log +
        (if h = handleOf env s ∧ handleOf env s ∉ s.resident then 1 else 0) := by
  rw [acquireHandle_log, residencyRequests_append, residencyRequests_append,
    residencyRequests_checkedCalls]
  by_cases hr : handleOf env s ∈ s.resident
  · simp [hr, residencyRequests]
  · by_cases hh : h = handleOf env s
    · simp [hr, hh, residencyRequests, Nat.add_comm]
    · have hh' : ¬ handleOf env s = h := fun e => hh e.symm
      simp [hr, hh, hh', residencyRequests]


theorem loadLoop_cons_none (env : Env) (name : String) (rest : List String)
    (acc : List GLuint64) (s : GLState) (h : env.stbi_load name = none) :
    loadLoop env (name :: rest) acc s
      = .error ((stbi_load env name s).2.print "Failed to load texture") := by
  show (match env.stbi_load name with
    | none => Except.error ((stbi_load env name s).2.print "Failed to load texture")
    | some img => loadLoop env rest (acc ++ [(acquireHandle env img (stbi_load env name s).2).1])
        (acquireHandle env img (stbi_load env name s).2).2) = _
  rw [h]

theorem loadLoop_cons_some (env : Env) (name : String) (rest : List String)
    (acc : List GLuint64) (s : GLState) (img : Image) (h : env.stbi_load name = some img) :
    loadLoop env (name :: rest) acc s
      = loadLoop env rest (acc ++ [handleOf env s])
          (acquireHandle env img (stbi_load env name s).2).2 := by
  show (match env.stbi_load name with
    | none => Except.error ((stbi_load env name s).2.print "Failed to load texture")
    | some img => loadLoop env rest (acc ++ [(acquireHandle env img (stbi_load env name s).2).1])
        (acquireHandle env img (stbi_load env name s).2).2) = _
  rw [h]
  show loadLoop env rest (acc ++ [(acquireHandle env img (stbi_load env name s).2).1]) _ = _
  rw [acquireHandle_fst]
  rfl

/-- Invariant rule for the load loop, on either exit. -/
theorem loadLoop_invariant (env : Env) (I : GLState → Prop)
    (hload : ∀ name s, I s → I (stbi_load env name s).2)
    (hacq : ∀ img s, I s → I (acquireHandle env img s).2)
    (hprint : ∀ msg s, I s → I (s.print msg)) :
    ∀ names acc s, I s → I (loopState (loadLoop env names acc s)) := by
  intro names
  induction names with
  | nil => intro acc s hs; exact hs
  | cons name rest ih =>
    intro acc s hs
    cases hd : env.stbi_load name with
    | none =>
      rw [loadLoop_cons_none env name rest acc s hd]
      exact hprint _ _ (hload _ _ hs)
    | some img =>
      rw [loadLoop_cons_some env name rest acc s img hd]
      exact ih _ _ (hacq _ _ (hload _ _ hs))

/-- Rule for the runs of the load loop in which every image decodes: the loop
returns, and a property of the names done, the vector and the state is carried
from pass to pass. -/
theorem loadLoop_ok_rule (env : Env) (P : List String → List GLuint64 → GLState → Prop)
    (hstep : ∀ done name img acc s, env.stbi_load name = some img → P done acc s →
      P (done ++ [name]) (acc ++ [handleOf env s])
        (acquireHandle env img (stbi_load env name s).2).2) :
    ∀ names done acc s, (∀ n ∈ names, env.stbi_load n ≠ none) → P done acc s →
      ∃ t s', loadLoop env names acc s = .ok (t, s') ∧ P (done ++ names) t s' := by
  intro names
  induction names with
  | nil =>
    intro done acc s _ hP
    exact ⟨acc, s, rfl, by simpa using hP⟩
  | cons name rest ih =>
    intro done acc s hdec hP
    cases hd : env.stbi_load name with
    | none => exact absurd hd (hdec name (List.mem_cons_self _ _))
    | some img =>
      rw [loadLoop_cons_some env name rest acc s img hd]
      have := ih (done ++ [name]) _ _ (fun n hn => hdec n (List.mem_cons_of_mem _ hn))
        (hstep done name img acc s hd hP)
      simpa using this

/-- A failing decode makes the loop leave through `return -1`. -/
theorem loadLoop_error (env : Env) :
    ∀ names acc s, (∃ n ∈ names, env.stbi_load n = none) →
      ∃ s', loadLoop env names acc s = .error s' := by
  intro names
  induction names with
  | nil => intro acc s h; simp at h
  | cons name rest ih =>
    intro acc s h
    cases hd : env.stbi_load name with
    | none => exact ⟨_, loadLoop_cons_none env name rest acc s hd⟩
    | some img =>
      rw [loadLoop_cons_some env name rest acc s img hd]
      apply ih
      obtain ⟨n, hn, hnone⟩ := h
      rcases List.mem_cons.mp hn with rfl | hn'
      · rw [hd] at hnone; cases hnone
      · exact ⟨n, hn', hnone⟩

/-! ## The handle buffer -/

theorem glBufferData_buffer (target : BufferTarget) (size : Int) (data : List Nat)
    (usage : BufferUsage) (s : GLState) (hsize : ¬ size < 0) :
    (glBufferData target size data usage s).buffers (s.bufferBinding target)
      = some { data := data.take size.toNat, usage := usage } := by
  simp [glBufferData, hsize]

theorem createTextureSSBO_buffer (env : Env) (t : List GLuint64) (s : GLState)
    (hsize : sizeof_GLuint64 * t.length < 2 ^ 63) :
    (createTextureSSBO env t s).2.buffers (env.genBuffers s.buffersGenerated)
      = some { data := memoryOfHandles t, usage := .GL_STATIC_DRAW } := by
  have h1 : sizeof_GLuint64 * t.length % 2 ^ 64 = sizeof_GLuint64 * t.length :=
    Nat.mod_eq_of_lt (by omega)
  have h2 : ¬ toGLsizeiptr (sizeof_GLuint64 * t.length % 2 ^ 64) < 0 := by
    rw [h1, toGLsizeiptr_of_lt _ hsize]; omega
  have h3 : List.take (sizeof_GLuint64 * t.length) (memoryOfHandles t) = memoryOfHandles t := by
    apply List.take_of_length_le
    rw [length_memoryOfHandles]; simp [sizeof_GLuint64]
  have key := glBufferData_buffer .GL_SHADER_STORAGE_BUFFER
    (toGLsizeiptr (sizeof_GLuint64 * t.length % 2 ^ 64)) (memoryOfHandles t) .GL_STATIC_DRAW
    (glBindBuffer .GL_SHADER_STORAGE_BUFFER (env.genBuffers s.buffersGenerated)
      (glGenBuffers env s).2) h2
  refine Eq.trans key ?_
  rw [h1, toGLsizeiptr_of_lt _ hsize, Int.toNat_ofNat, h3]

theorem createTextureSSBO_draws (env : Env) (t : List GLuint64) (s : GLState) :
    (createTextureSSBO env t s).2.draws = s.draws := rfl

theorem createTextureSSBO_polls (env : Env) (t : List GLuint64) (s : GLState) :
    (createTextureSSBO env t s).2.polls = s.polls := rfl

/-! ## Nothing is published before the load loop has finished -/

theorem Unpublished.step {s s' : GLState} (h : Unpublished s) (evs : List Call)
    (hlog : s'.log = evs ++ s.log)
    (hev : ∀ c ∈ evs, c.buildsHandleBuffer = false ∧ c.inFrameLoop = false)
    (hd : s'.draws = s.draws) (hp : s'.polls = s.polls)
    (hi : s'.indexedSSBO FragmentShader.BINDING_POINT_TEXTURE_SSBO
      = s.indexedSSBO FragmentShader.BINDING_POINT_TEXTURE_SSBO)
    (hb : s'.bufferBinding .GL_SHADER_STORAGE_BUFFER
      = s.bufferBinding .GL_SHADER_STORAGE_BUFFER) : Unpublished s' := by
  obtain ⟨h1, h2, h3, h4, h5⟩ := h
  refine ⟨?_, hd.trans h2, hp.trans h3, hi.trans h4, hb.trans h5⟩
  intro c hc
  rw [hlog, List.mem_append] at hc
  rcases hc with hc | hc
  · exact hev c hc
  · exact h1 c hc

theorem unpublished_contextState (env : Env) : Unpublished (contextState env) := by
  refine ⟨?_, rfl, rfl, rfl, rfl⟩
  intro c hc
  have : (contextState env).log =
      [.glewIsSupported "GL_ARB_gpu_shader_int64", .glewIsSupported "GL_ARB_bindless_texture",
       .glewInit, .glfwMakeContextCurrent,
       .glfwCreateWindow 800 600 "Bindless Texture Example", .glfwInit] := rfl
  rw [this] at hc
  simp only [List.mem_cons, List.mem_singleton, List.not_mem_nil, or_false] at hc
  rcases hc with rfl | rfl | rfl | rfl | rfl | rfl <;> exact ⟨rfl, rfl⟩

theorem unpublished_print {s : GLState} (msg : String) (h : Unpublished s) :
    Unpublished (s.print msg) := h

theorem unpublished_stbi_load (env : Env) (name : String) {s : GLState} (h : Unpublished s) :
    Unpublished (stbi_load env name s).2 :=
  h.step [.stbi_load name (env.stbi_load name).isSome] rfl
    (by intro c hc; rw [List.mem_singleton] at hc; subst hc; exact ⟨rfl, rfl⟩) rfl rfl rfl rfl

theorem acquireHandle_frame (env : Env) (img : Image) (s : GLState) :
    (acquireHandle env img s).2.draws = s.draws ∧
    (acquireHandle env img s).2.polls = s.polls ∧
    (acquireHandle env img s).2.indexedSSBO = s.indexedSSBO ∧
    (acquireHandle env img s).2.bufferBinding = s.bufferBinding ∧
    (acquireHandle env img s).2.buffers = s.buffers ∧
    (acquireHandle env img s).2.texturesGenerated = s.texturesGenerated + 1 := by
  rw [acquireHandle_eq]
  split <;> exact ⟨rfl, rfl, rfl, rfl, rfl, rfl⟩

theorem unpublished_acquireHandle (env : Env) (img : Image) {s : GLState} (h : Unpublished s) :
    Unpublished (acquireHandle env img s).2 := by
  obtain ⟨hd, hp, hi, hb, _, _⟩ := acquireHandle_frame env img s
  refine h.step _ (by rw [acquireHandle_log, List.append_assoc]) ?_ hd hp (by rw [hi]) (by rw [hb])
  intro c hc
  rw [List.mem_append] at hc
  rcases hc with hc | hc
  · split at hc
    · simp at hc
    · rw [List.mem_singleton] at hc; subst hc; exact ⟨rfl, rfl⟩
  · simp only [checkedCalls, List.mem_cons, List.mem_singleton, List.not_mem_nil,
      or_false] at hc
    rcases hc with rfl | rfl | rfl | rfl | rfl | rfl | rfl | rfl | rfl | rfl | rfl <;>
      exact ⟨rfl, rfl⟩

theorem unpublished_loopState (env : Env) (names : List String) (acc : List GLuint64)
    {s : GLState} (h : Unpublished s) : Unpublished (loopState (loadLoop env names acc s)) :=
  loadLoop_invariant env Unpublished (fun name _ hs => unpublished_stbi_load env name hs)
    (fun img _ hs => unpublished_acquireHandle env img hs)
    (fun msg _ hs => unpublished_print msg hs) names acc s h

/-! ## Shaders and program (lines 62-78 and 163-185) -/

theorem compileShader_status (env : Env) (src : ShaderSource) (ty : ShaderType) (s : GLState) :
    (glGetShaderiv (env.createShader s.shadersCreated)
      (glCompileShader env (env.createShader s.shadersCreated)
        (glShaderSource (env.createShader s.shadersCreated) src
          (glCreateShader env ty s).2))).1 = env.compile src ty := by
  simp [glGetShaderiv, glCompileShader, glShaderSource, glCreateShader, GLState.call]

theorem compileShader_infoLog (env : Env) (src : ShaderSource) (ty : ShaderType) (s : GLState) :
    (glGetShaderInfoLog (env.createShader s.shadersCreated) 512 (compiled env src ty s)).1
      = readInfoLog 512 (env.shaderInfoLog src ty) := by
  simp [glGetShaderInfoLog, compiled, glGetShaderiv, glCompileShader, glShaderSource,
    glCreateShader, GLState.call]

theorem compileShader_eq (env : Env) (src : ShaderSource) (ty : ShaderType) (s : GLState) :
    compileShader env src ty s =
      if !env.compile src ty then
        (env.createShader s.shadersCreated,
          (glGetShaderInfoLog (env.createShader s.shadersCreated) 512 (compiled env src ty s)).2.print
            ("Shader compilation error:\n" ++ readInfoLog 512 (env.shaderInfoLog src ty)))
      else (env.createShader s.shadersCreated, compiled env src ty s) := by
  have raw : compileShader env src ty s =
      if !(glGetShaderiv (env.createShader s.shadersCreated)
        (glCompileShader env (env.createShader s.shadersCreated)
          (glShaderSource (env.createShader s.shadersCreated) src
            (glCreateShader env ty s).2))).1 then
        (env.createShader s.shadersCreated,
          (glGetShaderInfoLog (env.createShader s.shadersCreated) 512 (compiled env src ty s)).2.print
            ("Shader compilation error:\n" ++
              (glGetShaderInfoLog (env.createShader s.shadersCreated) 512
                (compiled env src ty s)).1))
      else (env.createShader s.shadersCreated, compiled env src ty s) := rfl
  rw [raw, compileShader_status, compileShader_infoLog]

theorem compiled_log (env : Env) (src : ShaderSource) (ty : ShaderType) (s : GLState) :
    (compiled env src ty s).log =
      [.glGetShaderiv (env.createShader s.shadersCreated) (env.compile src ty),
       .glCompileShader (env.createShader s.shadersCreated),
       .glShaderSource (env.createShader s.shadersCreated) src,
       .glCreateShader ty (env.createShader s.shadersCreated)] ++ s.log := by
  have raw : (compiled env src ty s).log =
      [.glGetShaderiv (env.createShader s.shadersCreated)
        (glGetShaderiv (env.createShader s.shadersCreated)
          (glCompileShader env (env.createShader s.shadersCreated)
            (glShaderSource (env.createShader s.shadersCreated) src
              (glCreateShader env ty s).2))).1,
       .glCompileShader (env.createShader s.shadersCreated),
       .glShaderSource (env.createShader s.shadersCreated) src,
       .glCreateShader ty (env.createShader s.shadersCreated)] ++ s.log := rfl
  rw [raw, compileShader_status]

theorem compileShader_log (env : Env) (src : ShaderSource) (ty : ShaderType) (s : GLState) :
    (compileShader env src ty s).2.log = compileCalls env src ty s ++ s.log := by
  rw [compileShader_eq, compileCalls]
  cases h : env.compile src ty
  · show Call.glGetShaderInfoLog _ _ :: (compiled env src ty s).log = _
    rw [compiled_log, h]; rfl
  · show (compiled env src ty s).log = _
    rw [compiled_log, h]; rfl

theorem compileShader_cerr (env : Env) (src : ShaderSource) (ty : ShaderType) (s : GLState) :
    (compileShader env src ty s).2.cerr = compileDiagnostics env src ty ++ s.cerr := by
  rw [compileShader_eq, compileDiagnostics]
  cases h : env.compile src ty <;> rfl

theorem compileShader_frame (env : Env) (src : ShaderSource) (ty : ShaderType) (s : GLState) :
    (compileShader env src ty s).2.draws = s.draws ∧
    (compileShader env src ty s).2.polls = s.polls ∧
    (compileShader env src ty s).2.indexedSSBO = s.indexedSSBO ∧
    (compileShader env src ty s).2.bufferBinding = s.bufferBinding := by
  rw [compileShader_eq]
  cases h : env.compile src ty <;> exact ⟨rfl, rfl, rfl, rfl⟩

theorem mem_compileCalls {env : Env} {src : ShaderSource} {ty : ShaderType} {s : GLState}
    {c : Call} (hc : c ∈ compileCalls env src ty s) :
    c.buildsHandleBuffer = false ∧ c.inFrameLoop = false := by
  rw [compileCalls, List.mem_append] at hc
  rcases hc with hc | hc
  · split at hc
    · simp at hc
    · rw [List.mem_singleton] at hc; subst hc; exact ⟨rfl, rfl⟩
  · simp only [List.mem_cons, List.mem_singleton, List.not_mem_nil, or_false] at hc
    rcases hc with rfl | rfl | rfl | rfl <;> exact ⟨rfl, rfl⟩

theorem unpublished_compileShader (env : Env) (src : ShaderSource) (ty : ShaderType)
    {s : GLState} (h : Unpublished s) : Unpublished (compileShader env src ty s).2 := by
  obtain ⟨hd, hp, hi, hb⟩ := compileShader_frame env src ty s
  exact h.step _ (compileShader_log env src ty s) (fun c hc => mem_compileCalls hc) hd hp
    (by rw [hi]) (by rw [hb])

theorem linked_status (env : Env) (vs fs : GLuint) (s : GLState) :
    (glGetProgramiv env.createProgram
      (glLinkProgram env env.createProgram
        (glAttachShader env.createProgram fs
          (glAttachShader env.createProgram vs
            (glCreateProgram env s).2)))).1 = env.link := by
  simp [glGetProgramiv, glLinkProgram, glAttachShader, glCreateProgram, GLState.call]

theorem linked_infoLog (env : Env) (vs fs : GLuint) (s : GLState) :
    (glGetProgramInfoLog env.createProgram 512 (linked env vs fs s)).1
      = readInfoLog 512 env.programInfoLog := by
  simp [glGetProgramInfoLog, linked, glGetProgramiv, glLinkProgram, glAttachShader,
    glCreateProgram, GLState.call]

/-- State of `createProgram` after the link check (line 181). -/
theorem createProgram_eq (env : Env) (s : GLState) :
    createProgram env s =
      (env.createProgram,
        glDeleteShader
          (compileShader env .fragmentShaderSource .GL_FRAGMENT_SHADER
            (compileShader env .vertexShaderSource .GL_VERTEX_SHADER s).2).1
          (glDeleteShader (compileShader env .vertexShaderSource .GL_VERTEX_SHADER s).1
            (if !env.link then
              (glGetProgramInfoLog env.createProgram 512
                (linked env (compileShader env .vertexShaderSource .GL_VERTEX_SHADER s).1
                  (compileShader env .fragmentShaderSource .GL_FRAGMENT_SHADER
                    (compileShader env .vertexShaderSource .GL_VERTEX_SHADER s).2).1
                  (compileShader env .fragmentShaderSource .GL_FRAGMENT_SHADER
                    (compileShader env .vertexShaderSource .GL_VERTEX_SHADER s).2).2)).2.print
                ("Program linking error:\n" ++ readInfoLog 512 env.programInfoLog)
            else
              linked env (compileShader env .vertexShaderSource .GL_VERTEX_SHADER s).1
                (compileShader env .fragmentShaderSource .GL_FRAGMENT_SHADER
                  (compileShader env .vertexShaderSource .GL_VERTEX_SHADER s).2).1
                (compileShader env .fragmentShaderSource .GL_FRAGMENT_SHADER
                  (compileShader env .vertexShaderSource .GL_VERTEX_SHADER s).2).2))) := by
  have raw : createProgram env s =
      (env.createProgram,
        glDeleteShader
          (compileShader env .fragmentShaderSource .GL_FRAGMENT_SHADER
            (compileShader env .vertexShaderSource .GL_VERTEX_SHADER s).2).1
          (glDeleteShader (compileShader env .vertexShaderSource .GL_VERTEX_SHADER s).1
            (if !(glGetProgramiv env.createProgram
                (glLinkProgram env env.createProgram
                  (glAttachShader env.createProgram
                    (compileShader env .fragmentShaderSource .GL_FRAGMENT_SHADER
                      (compileShader env .vertexShaderSource .GL_VERTEX_SHADER s).2).1
                    (glAttachShader env.createProgram
                      (compileShader env .vertexShaderSource .GL_VERTEX_SHADER s).1
                      (glCreateProgram env
                        (compileShader env .fragmentShaderSource .GL_FRAGMENT_SHADER
                          (compileShader env .vertexShaderSource .GL_VERTEX_SHADER s).2).2).2)))).1
             then
              (glGetProgramInfoLog env.createProgram 512
                (linked env (compileShader env .vertexShaderSource .GL_VERTEX_SHADER s).1
                  (compileShader env .fragmentShaderSource .GL_FRAGMENT_SHADER
                    (compileShader env .vertexShaderSource .GL_VERTEX_SHADER s).2).1
                  (compileShader env .fragmentShaderSource .GL_FRAGMENT_SHADER
                    (compileShader env .vertexShaderSource .GL_VERTEX_SHADER s).2).2)).2.print
                ("Program linking error:\n" ++
                  (glGetProgramInfoLog env.createProgram 512
                    (linked env (compileShader env .vertexShaderSource .GL_VERTEX_SHADER s).1
                      (compileShader env .fragmentShaderSource .GL_FRAGMENT_SHADER
                        (compileShader env .vertexShaderSource .GL_VERTEX_SHADER s).2).1
                      (compileShader env .fragmentShaderSource .GL_FRAGMENT_SHADER
                        (compileShader env .vertexShaderSource .GL_VERTEX_SHADER s).2).2)).1)
            else
              linked env (compileShader env .vertexShaderSource .GL_VERTEX_SHADER s).1
                (compileShader env .fragmentShaderSource .GL_FRAGMENT_SHADER
                  (compileShader env .vertexShaderSource .GL_VERTEX_SHADER s).2).1
                (compileShader env .fragmentShaderSource .GL_FRAGMENT_SHADER
                  (compileShader env .vertexShaderSource .GL_VERTEX_SHADER s).2).2))) := rfl
  rw [raw, linked_status, linked_infoLog]

theorem createProgram_cerr (env : Env) (s : GLState) :
    (createProgram env s).2.cerr =
      linkDiagnostics env ++
        (compileDiagnostics env .fragmentShaderSource .GL_FRAGMENT_SHADER ++
          (compileDiagnostics env .vertexShaderSource .GL_VERTEX_SHADER ++ s.cerr)) := by
  have h1 := compileShader_cerr env .vertexShaderSource .GL_VERTEX_SHADER s
  have h2 := compileShader_cerr env .fragmentShaderSource .GL_FRAGMENT_SHADER
    (compileShader env .vertexShaderSource .GL_VERTEX_SHADER s).2
  rw [h1] at h2
  rw [createProgram_eq, linkDiagnostics]
  cases h : env.link
  · show _ :: (compileShader env .fragmentShaderSource .GL_FRAGMENT_SHADER
      (compileShader env .vertexShaderSource .GL_VERTEX_SHADER s).2).2.cerr = _
    rw [h2]; rfl
  · show (compileShader env .fragmentShaderSource .GL_FRAGMENT_SHADER
      (compileShader env .vertexShaderSource .GL_VERTEX_SHADER s).2).2.cerr = _
    rw [h2]; rfl

theorem unpublished_createProgram (env : Env) {s : GLState} (h : Unpublished s) :
    Unpublished (createProgram env s).2 := by
  have h2 := unpublished_compileShader env .fragmentShaderSource .GL_FRAGMENT_SHADER
    (unpublished_compileShader env .vertexShaderSource .GL_VERTEX_SHADER h)
  rw [createProgram_eq]
  cases hl : env.link
  · refine h2.step
      [.glDeleteShader _, .glDeleteShader _, .glGetProgramInfoLog _ _, .glGetProgramiv _ _,
       .glLinkProgram _, .glAttachShader _ _, .glAttachShader _ _, .glCreateProgram _]
      rfl ?_ rfl rfl rfl rfl
    intro c hc
    simp only [List.mem_cons, List.mem_singleton, List.not_mem_nil, or_false] at hc
    rcases hc with rfl | rfl | rfl | rfl | rfl | rfl | rfl | rfl <;> exact ⟨rfl, rfl⟩
  · refine h2.step
      [.glDeleteShader _, .glDeleteShader _, .glGetProgramiv _ _,
       .glLinkProgram _, .glAttachShader _ _, .glAttachShader _ _, .glCreateProgram _]
      rfl ?_ rfl rfl rfl rfl
    intro c hc
    simp only [List.mem_cons, List.mem_singleton, List.not_mem_nil, or_false] at hc
    rcases hc with rfl | rfl | rfl | rfl | rfl | rfl | rfl <;> exact ⟨rfl, rfl⟩

/-! ## Startup (lines 83-230) -/

theorem unpublished_createGeometry (env : Env) {s : GLState} (h : Unpublished s) :
    Unpublished (createGeometry env s).2 := by
  refine h.step
    [.glBindVertexArray _, .glEnableVertexAttribArray _, .glVertexAttribPointer _ _ _ _,
     .glEnableVertexAttribArray _, .glVertexAttribPointer _ _ _ _,
     .glBufferData .GL_ELEMENT_ARRAY_BUFFER _ _, .glBindBuffer .GL_ELEMENT_ARRAY_BUFFER _,
     .glBufferData .GL_ARRAY_BUFFER _ _, .glBindBuffer .GL_ARRAY_BUFFER _,
     .glBindVertexArray _, .glGenBuffers _, .glGenBuffers _, .glGenVertexArrays _]
    rfl ?_ rfl rfl rfl rfl
  intro c hc
  simp only [List.mem_cons, List.mem_singleton, List.not_mem_nil, or_false] at hc
  rcases hc with rfl | rfl | rfl | rfl | rfl | rfl | rfl | rfl | rfl | rfl | rfl | rfl | rfl <;>
    exact ⟨rfl, rfl⟩

theorem unpublished_preLoop (env : Env) : Unpublished (preLoop env) :=
  unpublished_createProgram env (unpublished_createGeometry env (unpublished_contextState env))

/-- Function `startup` as the chain of its checks. -/
theorem startup_eq (env : Env) :
    startup env =
      if !env.glfwInit then
        .error ((glfwInit env GLState.initial).2.print "Failed to initialize GLFW")
      else if !env.glfwCreateWindow then
        .error (glfwTerminate ((glfwCreateWindow env 800 600 "Bindless Texture Example"
          (glfwInit env GLState.initial).2).2.print "Failed to create GLFW window"))
      else if !env.glewInit then
        .error ((glewInit env (glfwMakeContextCurrent
          (glfwCreateWindow env 800 600 "Bindless Texture Example"
            (glfwInit env GLState.initial).2).2)).2.print "Failed to initialize GLEW")
      else if !env.glewIsSupported "GL_ARB_bindless_texture" then
        .error ((glewIsSupported env "GL_ARB_bindless_texture"
          (glewInit env (glfwMakeContextCurrent
            (glfwCreateWindow env 800 600 "Bindless Texture Example"
              (glfwInit env GLState.initial).2).2)).2).2.print
          "GL_ARB_bindless_texture not supported")
      else if !env.glewIsSupported "GL_ARB_gpu_shader_int64" then
        .error ((contextState env).print "GL_ARB_gpu_shader_int64 not supported")
      else
        match loadLoop env textureName [] (preLoop env) with
        | .error s => .error s
        | .ok (textureHandles, s) =>
          .ok ({ VAO := env.genVertexArrays 0, VBO := env.genBuffers 0, EBO := env.genBuffers 1,
                 program := env.createProgram, textureHandles := textureHandles,
                 TextureSSBO := (createTextureSSBO env textureHandles s).1 },
               (createTextureSSBO env textureHandles s).2) :=
  rfl

/-! ## The frame loop (lines 233-250) -/

/-- What a draw of the frame loop executes with, in a state whose buffers are `buffers`. -/
theorem frame_draws (c : Setup) (s : GLState) :
    (frame c s).draws = s.draws ++
      [{ program := c.program, vao := c.VAO, ssbo := c.TextureSSBO,
         ssboContents := (s.buffers c.TextureSSBO).map (fun b => b.data) }] := rfl

theorem frameLoop_zero (env : Env) (c : Setup) (s : GLState) :
    frameLoop env c 0 s = (false, s) := rfl

theorem frameLoop_succ (env : Env) (c : Setup) (fuel : Nat) (s : GLState) :
    frameLoop env c (fuel + 1) s =
      if !env.windowShouldClose s.polls then
        frameLoop env c fuel (frame c (glfwWindowShouldClose env s).2)
      else (true, (glfwWindowShouldClose env s).2) := rfl

/-- Shape of every run of the frame loop: `n` whole passes, then either the
condition that ends the loop or the end of the fuel. -/
theorem frameLoop_shape (env : Env) (c : Setup) :
    ∀ fuel s, ∃ n, n ≤ fuel ∧
      (frameLoop env c fuel s).2.log =
        (if (frameLoop env c fuel s).1 then [Call.glfwWindowShouldClose true] else []) ++
          ((List.replicate n (frameCalls c)).flatten ++ s.log) ∧
      (frameLoop env c fuel s).2.draws = s.draws ++
        List.replicate n
          { program := c.program, vao := c.VAO, ssbo := c.TextureSSBO,
            ssboContents := (s.buffers c.TextureSSBO).map (fun b => b.data) } ∧
      (frameLoop env c fuel s).2.buffers = s.buffers ∧
      (frameLoop env c fuel s).2.handles = s.handles ∧
      (frameLoop env c fuel s).2.resident = s.resident ∧
      (frameLoop env c fuel s).2.polls = s.polls + n ∧
      ((frameLoop env c fuel s).1 = true → env.windowShouldClose (s.polls + n) = true) ∧
      (∀ k, k < n → env.windowShouldClose (s.polls + k) = false) := by
  intro fuel
  induction fuel with
  | zero =>
    intro s
    exact ⟨0, Nat.le_refl _, rfl, by simp [frameLoop_zero], rfl, rfl, rfl, rfl,
      by simp [frameLoop_zero], by intro k hk; omega⟩
  | succ fuel ih =>
    intro s
    rw [frameLoop_succ]
    cases hclose : env.windowShouldClose s.polls
    · obtain ⟨n, hn, hlog, hdraws, hbuf, hh, hr, hp, hexit, hopen⟩ :=
        ih (frame c (glfwWindowShouldClose env s).2)
      have hpolls : (frame c (glfwWindowShouldClose env s).2).polls = s.polls + 1 := rfl
      have hl : (frame c (glfwWindowShouldClose env s).2).log = frameCalls c ++ s.log := by
        show _ :: _ :: _ :: _ :: _ :: _ :: _ ::
          Call.glfwWindowShouldClose (env.windowShouldClose s.polls) :: s.log = _
        rw [hclose]; rfl
      refine ⟨n + 1, by omega, ?_, ?_, ?_, ?_, ?_, ?_, ?_, ?_⟩
      · simp only [Bool.not_false, if_true]
        rw [hlog, hl, List.replicate_succ', List.flatten_append]
        simp
      · simp only [Bool.not_false, if_true]
        rw [hdraws, frame_draws, List.replicate_succ, List.append_assoc]
        rfl
      · simp only [Bool.not_false, if_true]
        rw [hbuf]; rfl
      · simp only [Bool.not_false, if_true]
        rw [hh]; rfl
      · simp only [Bool.not_false, if_true]
        rw [hr]; rfl
      · simp only [Bool.not_false, if_true]
        rw [hp, hpolls]; omega
      · simp only [Bool.not_false, if_true]
        intro hx
        have := hexit hx
        rw [hpolls] at this
        rw [← this]; congr 1; omega
      · intro k hk
        cases k with
        | zero => simpa using hclose
        | succ j =>
          have := hopen j (by omega)
          rw [hpolls] at this
          rw [← this]; congr 1; omega
    · refine ⟨0, by omega, ?_, ?_, ?_, ?_, ?_, ?_, ?_, ?_⟩
      · simp only [Bool.not_true, if_false, if_true]
        show Call.glfwWindowShouldClose (env.windowShouldClose s.polls) :: s.log = _
        rw [hclose]; rfl
      · simp only [Bool.not_true, if_false]
        show s.draws = _
        simp
      · rfl
      · rfl
      · rfl
      · rfl
      · intro _; simpa using hclose
      · intro k hk; omega

/-! ## Function `main` -/

theorem main_of_startup_error (env : Env) (fuel : Nat) (s : GLState)
    (h : startup env = .error s) : main env fuel = .returned (-1) s := by
  rw [main, h]

theorem main_of_startup_ok (env : Env) (fuel : Nat) (c : Setup) (s : GLState)
    (h : startup env = .ok (c, s)) :
    main env fuel =
      if (frameLoop env c fuel s).1 then .returned 0 (cleanup c (frameLoop env c fuel s).2)
      else .running (frameLoop env c fuel s).2 := by
  rw [main, h]
  show (match frameLoop env c fuel s with
    | (false, s) => Outcome.running s
    | (true, s) => Outcome.returned 0 (cleanup c s)) = _
  rcases frameLoop env c fuel s with ⟨b, s'⟩
  cases b <;> rfl

theorem startup_of_ready (env : Env) (h : env.contextReady) :
    startup env =
      match loadLoop env textureName [] (preLoop env) with
      | .error s => .error s
      | .ok (textureHandles, s) =>
        .ok ({ VAO := env.genVertexArrays 0, VBO := env.genBuffers 0, EBO := env.genBuffers 1,
               program := env.createProgram, textureHandles := textureHandles,
               TextureSSBO := (createTextureSSBO env textureHandles s).1 },
             (createTextureSSBO env textureHandles s).2) := by
  obtain ⟨h1, h2, h3, h4, h5⟩ := h
  rw [startup_eq, h1, h2, h3, h4, h5]
  rfl

/-! ## The load loop as a whole -/

theorem acquireHandle_texturesGenerated (env : Env) (img : Image) (s : GLState) :
    (acquireHandle env img s).2.texturesGenerated = s.texturesGenerated + 1 :=
  (acquireHandle_frame env img s).2.2.2.2.2

/-- Runs of the load loop in which every image decodes: the loop returns the
handles of the records it appended, one record per file, in the order of the
files, on textures named by consecutive `glGenTextures` calls. -/
theorem loadLoop_ok (env : Env) (names : List String) (s0 : GLState)
    (hdec : ∀ n ∈ names, env.stbi_load n ≠ none) :
    ∃ recs s, loadLoop env names [] s0 = .ok (recs.map (fun r => r.handle), s) ∧
      s.handles = s0.handles ++ recs ∧
      List.Forall₂ (AcquiredFor env) names recs ∧
      recs.map (fun r => r.texture)
        = (List.range names.length).map (fun i => env.genTextures (s0.texturesGenerated + i)) := by
  have key := loadLoop_ok_rule env
    (fun done acc s => ∃ recs, acc = recs.map (fun r => r.handle) ∧
      s.handles = s0.handles ++ recs ∧
      List.Forall₂ (AcquiredFor env) done recs ∧
      s.texturesGenerated = s0.texturesGenerated + done.length ∧
      recs.map (fun r => r.texture)
        = (List.range done.length).map (fun i => env.genTextures (s0.texturesGenerated + i)))
    (by
      intro done name img acc s hd ⟨recs, hacc, hh, hf, hg, ht⟩
      have hgen : (stbi_load env name s).2.texturesGenerated = s.texturesGenerated := rfl
      have hhandles : (stbi_load env name s).2.handles = s.handles := rfl
      have hof : handleOf env (stbi_load env name s).2 = handleOf env s := rfl
      refine ⟨recs ++ [{ handle := handleOf env s,
                         texture := env.genTextures s.texturesGenerated,
                         state := { wrapS := .GL_REPEAT, wrapT := .GL_REPEAT,
                                    minFilter := .GL_LINEAR, magFilter := .GL_LINEAR,
                                    image := some img.toTexImage, mipmapChain := true } }],
        ?_, ?_, ?_, ?_, ?_⟩
      · rw [List.map_append, hacc]; rfl
      · rw [acquireHandle_handles, hhandles, hh, hgen, hof, List.append_assoc]
      · exact List.rel_append hf (List.Forall₂.cons ⟨img, hd, rfl, rfl⟩ List.Forall₂.nil)
      · rw [acquireHandle_texturesGenerated, hgen, hg, List.length_append]
        simp only [List.length_singleton]; omega
      · rw [List.map_append, ht, List.length_append, List.length_singleton,
          List.range_succ, List.map_append, hg]
        rfl)
    names [] [] s0 hdec ⟨[], rfl, by simp, List.Forall₂.nil, rfl, rfl⟩
  obtain ⟨t, s, hrun, recs, ht, hh, hf, _, htex⟩ := key
  rw [List.nil_append] at hf htex
  exact ⟨recs, s, by rw [hrun, ht], hh, hf, htex⟩

/-- A run of the load loop that returns a vector decoded every file. -/
theorem loadLoop_decoded (env : Env) (names : List String) (acc : List GLuint64)
    (s : GLState) (t : List GLuint64) (s' : GLState)
    (h : loadLoop env names acc s = .ok (t, s')) : ∀ n ∈ names, env.stbi_load n ≠ none := by
  intro n hn hnone
  obtain ⟨e, he⟩ := loadLoop_error env names acc s ⟨n, hn, hnone⟩
  rw [he] at h
  cases h

/-- Residency bookkeeping of the load loop, on either exit. -/
theorem loadLoop_residency (env : Env) (names : List String) (acc : List GLuint64)
    (s0 : GLState) :
    ∃ recs, (loopState (loadLoop env names acc s0)).handles = s0.handles ++ recs ∧
      (∀ r ∈ recs, r.handle ∈ (loopState (loadLoop env names acc s0)).resident) ∧
      (∀ h ∈ s0.resident, h ∈ (loopState (loadLoop env names acc s0)).resident) ∧
      (loopState (loadLoop env names acc s0)).errors = s0.errors ∧
      ∀ h, residencyRequests h (loopState (loadLoop env names acc s0)).log
        = residencyRequests h s0.log +
          (if h ∈ (loopState (loadLoop env names acc s0)).resident ∧ h ∉ s0.resident
           then 1 else 0) := by
  refine loadLoop_invariant env
    (fun s => ∃ recs, s.handles = s0.handles ++ recs ∧
      (∀ r ∈ recs, r.handle ∈ s.resident) ∧
      (∀ h ∈ s0.resident, h ∈ s.resident) ∧
      s.errors = s0.errors ∧
      ∀ h, residencyRequests h s.log
        = residencyRequests h s0.log + (if h ∈ s.resident ∧ h ∉ s0.resident then 1 else 0))
    ?_ ?_ ?_ names acc s0 ⟨[], by simp, by simp, fun h hh => hh, rfl, ?_⟩
  · intro name s ⟨recs, hh, hr, hmono, he, hq⟩
    refine ⟨recs, hh, hr, hmono, he, ?_⟩
    intro h
    have : (stbi_load env name s).2.log = [Call.stbi_load name (env.stbi_load name).isSome] ++ s.log :=
      rfl
    rw [this, residencyRequests_append, hq h]
    have : residencyRequests h [Call.stbi_load name (env.stbi_load name).isSome] = 0 := rfl
    rw [this, Nat.zero_add]
    rfl
  · intro img s ⟨recs, hh, hr, hmono, he, hq⟩
    have hres := acquireHandle_resident env img s
    have hin : handleOf env s ∈ (acquireHandle env img s).2.resident := by
      rw [hres]; split
      · assumption
      · exact List.mem_cons_self _ _
    have hsub : ∀ h ∈ s.resident, h ∈ (acquireHandle env img s).2.resident := by
      intro h hh'
      rw [hres]; split
      · exact hh'
      · exact List.mem_cons_of_mem _ hh'
    refine ⟨recs ++ [_], by rw [acquireHandle_handles, hh, List.append_assoc], ?_,
      fun h hh' => hsub h (hmono h hh'), by rw [acquireHandle_errors, he], ?_⟩
    · intro r hr'
      rcases List.mem_append.mp hr' with hr' | hr'
      · exact hsub _ (hr r hr')
      · rw [List.mem_singleton] at hr'; subst hr'; exact hin
    · intro h
      rw [acquireHandle_requests, hq h]
      by_cases hcase : h = handleOf env s ∧ handleOf env s ∉ s.resident
      · obtain ⟨rfl, hnot⟩ := hcase
        have h0 : handleOf env s ∉ s0.resident := fun hx => hnot (hmono _ hx)
        simp [hnot, h0, hin]
      · rw [if_neg hcase, Nat.add_zero]
        have : (h ∈ (acquireHandle env img s).2.resident ∧ h ∉ s0.resident)
            ↔ (h ∈ s.resident ∧ h ∉ s0.resident) := by
          constructor
          · rintro ⟨h1, h2⟩
            refine ⟨?_, h2⟩
            rw [hres] at h1
            split at h1
            · exact h1
            · rcases List.mem_cons.mp h1 with rfl | h1
              · exact absurd ⟨rfl, by assumption⟩ hcase
              · exact h1
          · rintro ⟨h1, h2⟩
            exact ⟨hsub h h1, h2⟩
        simp only [this]
  · intro msg s hs
    exact hs
  · intro h
    have : ¬ (h ∈ s0.resident ∧ h ∉ s0.resident) := fun ⟨a, b⟩ => b a
    rw [if_neg this, Nat.add_zero]

/-! ## The claims -/

/-- C1: when every image of the list decodes, the load loop returns a handle
table as long as the list, and entry `i` of the table is the handle that the
`i`-th handle acquisition of the loop returned, made on the texture that holds
the `i`-th image of the list. -/
theorem C1_handle_table_in_image_order (env : Env) (names : List String) (s0 : GLState)
    (hdec : ∀ n ∈ names, env.stbi_load n ≠ none) :
    ∃ table s, loadLoop env names [] s0 = .ok (table, s) ∧
      table.length = names.length ∧
      ∀ i (hi : i < names.length), ∃ r img,
        s.handles[s0.handles.length + i]? = some r ∧
        env.stbi_load names[i] = some img ∧
        r.state.image = some img.toTexImage ∧
        table[i]? = some r.handle := by
  obtain ⟨recs, s, hrun, hh, hf, _⟩ := loadLoop_ok env names s0 hdec
  have hlen : names.length = recs.length := hf.length_eq
  refine ⟨_, s, hrun, by rw [List.length_map, hlen], ?_⟩
  intro i hi
  have hi' : i < recs.length := hlen ▸ hi
  obtain ⟨img, himg, _, hstate⟩ := (List.forall₂_iff_get.mp hf).2 i hi hi'
  refine ⟨recs[i], img, ?_, himg, ?_, ?_⟩
  · rw [hh, List.getElem?_append_right (Nat.le_add_right _ _), Nat.add_sub_cancel_left,
      List.getElem?_eq_getElem hi']
  · have : recs[i].state = _ := hstate
    rw [this]
  · rw [List.getElem?_map, List.getElem?_eq_getElem hi']
    rfl

theorem C1_handle_table_in_image_order_witness :
    ∃ table s, loadLoop exampleEnv textureName [] GLState.initial = .ok (table, s) ∧
      table.length = textureName.length ∧
      ∀ i (hi : i < textureName.length), ∃ r img,
        s.handles[GLState.initial.handles.length + i]? = some r ∧
        exampleEnv.stbi_load textureName[i] = some img ∧
        r.state.image = some img.toTexImage ∧
        table[i]? = some r.handle :=
  C1_handle_table_in_image_order exampleEnv textureName GLState.initial
    (fun _ _ => Option.some_ne_none _)

/-- C2: the buffer created from a handle table (of 64-bit values, whose byte
size is a valid `GLsizeiptr`) has static usage and a data store of exactly
`8 * count` bytes: the handles in table order, 8 bytes each, nothing between
them, so that element `i` of the shader's `uint64_t` array is handle `i`. -/
theorem C2_buffer_is_packed_handle_table (env : Env) (textureHandles : List GLuint64)
    (s : GLState)
    (h64 : ∀ h ∈ textureHandles, h < 2 ^ 64)
    (hsize : sizeof_GLuint64 * textureHandles.length < 2 ^ 63) :
    ∃ data,
      (createTextureSSBO env textureHandles s).2.buffers
          (createTextureSSBO env textureHandles s).1
        = some { data := data, usage := .GL_STATIC_DRAW } ∧
      data.length = 8 * textureHandles.length ∧
      data = textureHandles.flatMap (bytesOf 8) ∧
      ∀ i (hi : i < textureHandles.length),
        FragmentShader.TextureSSBO data i = some textureHandles[i] := by
  refine ⟨memoryOfHandles textureHandles, createTextureSSBO_buffer env _ s hsize,
    length_memoryOfHandles _, rfl, ?_⟩
  intro i hi
  rw [TextureSSBO_memoryOfHandles _ i hi, Nat.mod_eq_of_lt (h64 _ (List.getElem_mem _))]

theorem C2_buffer_is_packed_handle_table_witness :
    ∃ data,
      (createTextureSSBO exampleEnv [4294967303, 18446744073709551615] GLState.initial).2.buffers
          (createTextureSSBO exampleEnv [4294967303, 18446744073709551615] GLState.initial).1
        = some { data := data, usage := .GL_STATIC_DRAW } ∧
      data.length = 8 * [4294967303, 18446744073709551615].length ∧
      data = [4294967303, 18446744073709551615].flatMap (bytesOf 8) ∧
      ∀ i (hi : i < [4294967303, 18446744073709551615].length),
        FragmentShader.TextureSSBO data i = some [4294967303, 18446744073709551615][i] :=
  C2_buffer_is_packed_handle_table exampleEnv [4294967303, 18446744073709551615]
    GLState.initial (by decide) (by decide)

/-- C3: on either exit of the load loop, every handle acquired by the loop is
reported resident by `glIsTextureHandleResidentARB`; no residency request of
the loop hit a handle that was resident at that moment (no
`GL_INVALID_OPERATION` was raised, and a handle resident before the loop is
never requested); each handle is requested at most once; and in each pass the
request, when there is one, is the call right after the residency check, which
then returned `false`, while a check that returned `true` is followed by no
request. -/
theorem C3_acquired_handles_resident_requested_once (env : Env) (names : List String)
    (acc : List GLuint64) (s0 : GLState) :
    (∃ recs, (loopState (loadLoop env names acc s0)).handles = s0.handles ++ recs ∧
      (∀ r ∈ recs,
        (glIsTextureHandleResidentARB r.handle (loopState (loadLoop env names acc s0))).1
          = true) ∧
      (loopState (loadLoop env names acc s0)).errors = s0.errors ∧
      (∀ h ∈ s0.resident,
        residencyRequests h (loopState (loadLoop env names acc s0)).log
          = residencyRequests h s0.log) ∧
      ∀ h, residencyRequests h (loopState (loadLoop env names acc s0)).log
        ≤ residencyRequests h s0.log + 1) ∧
    ∀ img s, ∃ before,
      (acquireHandle env img s).2.log =
        (if handleOf env s ∈ s.resident then []
         else [Call.glMakeTextureHandleResidentARB (handleOf env s)]) ++
        (Call.glIsTextureHandleResidentARB (handleOf env s)
          (decide (handleOf env s ∈ s.resident)) :: before) ∧
      (glIsTextureHandleResidentARB (handleOf env s) (acquireHandle env img s).2).1 = true := by
  constructor
  · obtain ⟨recs, hh, hr, _, he, hq⟩ := loadLoop_residency env names acc s0
    refine ⟨recs, hh, ?_, he, ?_, ?_⟩
    · intro r hr'
      exact decide_eq_true (hr r hr')
    · intro h hh'
      rw [hq h, if_neg (fun hx => hx.2 hh'), Nat.add_zero]
    · intro h
      rw [hq h]
      split <;> omega
  · intro img s
    refine ⟨(checkedCalls env img s).tail ++ s.log, ?_, ?_⟩
    · rw [acquireHandle_log, List.append_assoc]
      rfl
    · apply decide_eq_true
      rw [acquireHandle_resident]
      split
      · assumption
      · exact List.mem_cons_self _ _

/-- C10: the fragment shader's split of a 64-bit handle into two 32-bit words
loses nothing: `low + high * 2^32` is the handle, so two different handles
never give the same pair. -/
theorem C10_handle_split_lossless (h : Nat) (hh : h < 2 ^ 64) :
    (FragmentShader.uvechandle h).1 = h % 2 ^ 32 ∧
    (FragmentShader.uvechandle h).2 = h / 2 ^ 32 ∧
    (FragmentShader.uvechandle h).1 + (FragmentShader.uvechandle h).2 * 2 ^ 32 = h ∧
    ∀ h' : Nat, h' < 2 ^ 64 →
      FragmentShader.uvechandle h' = FragmentShader.uvechandle h → h' = h := by
  have parts : ∀ x : Nat, x < 2 ^ 64 →
      (FragmentShader.uvechandle x).1 = x % 2 ^ 32 ∧
      (FragmentShader.uvechandle x).2 = x / 2 ^ 32 := by
    intro x hx
    have h1 : x / 2 ^ 32 < 2 ^ 32 := by omega
    simp only [FragmentShader.uvechandle, FragmentShader.uint, Nat.shiftRight_eq_div_pow,
      Nat.mod_eq_of_lt h1, and_self]
  have key : ∀ x : Nat, x < 2 ^ 64 →
      (FragmentShader.uvechandle x).1 + (FragmentShader.uvechandle x).2 * 2 ^ 32 = x := by
    intro x hx
    rw [(parts x hx).1, (parts x hx).2]
    omega
  refine ⟨(parts h hh).1, (parts h hh).2, key h hh, ?_⟩
  intro h' hh' e
  rw [← key h' hh', ← key h hh, e]

theorem C10_handle_split_lossless_witness :
    (FragmentShader.uvechandle 18446744073709551615).1 = 18446744073709551615 % 2 ^ 32 ∧
    (FragmentShader.uvechandle 18446744073709551615).2 = 18446744073709551615 / 2 ^ 32 ∧
    (FragmentShader.uvechandle 18446744073709551615).1
      + (FragmentShader.uvechandle 18446744073709551615).2 * 2 ^ 32 = 18446744073709551615 ∧
    ∀ h' : Nat, h' < 2 ^ 64 →
      FragmentShader.uvechandle h' = FragmentShader.uvechandle 18446744073709551615 →
      h' = 18446744073709551615 :=
  C10_handle_split_lossless 18446744073709551615 (by decide)

theorem Unpublished.of_log {s : GLState} (l : List Call) (hl : s.log = l)
    (hq : ∀ c ∈ l, c.buildsHandleBuffer = false ∧ c.inFrameLoop = false)
    (hd : s.draws = []) (hp : s.polls = 0)
    (hi : s.indexedSSBO FragmentShader.BINDING_POINT_TEXTURE_SSBO = 0)
    (hb : s.bufferBinding .GL_SHADER_STORAGE_BUFFER = 0) : Unpublished s :=
  ⟨by rw [hl]; exact hq, hd, hp, hi, hb⟩

theorem startup_error_unpublished (env : Env) (s : GLState) (h : startup env = .error s) :
    Unpublished s := by
  rw [startup_eq] at h
  cases h1 : env.glfwInit
  · rw [h1, if_pos (by decide)] at h
    cases h
    exact Unpublished.of_log [.glfwInit] rfl (by decide) rfl rfl rfl rfl
  rw [h1, if_neg (by decide)] at h
  cases h2 : env.glfwCreateWindow
  · rw [h2, if_pos (by decide)] at h
    cases h
    exact Unpublished.of_log
      [.glfwTerminate, .glfwCreateWindow 800 600 "Bindless Texture Example", .glfwInit]
      rfl (by decide) rfl rfl rfl rfl
  rw [h2, if_neg (by decide)] at h
  cases h3 : env.glewInit
  · rw [h3, if_pos (by decide)] at h
    cases h
    exact Unpublished.of_log
      [.glewInit, .glfwMakeContextCurrent,
       .glfwCreateWindow 800 600 "Bindless Texture Example", .glfwInit]
      rfl (by decide) rfl rfl rfl rfl
  rw [h3, if_neg (by decide)] at h
  cases h4 : env.glewIsSupported "GL_ARB_bindless_texture"
  · rw [h4, if_pos (by decide)] at h
    cases h
    exact Unpublished.of_log
      [.glewIsSupported "GL_ARB_bindless_texture", .glewInit, .glfwMakeContextCurrent,
       .glfwCreateWindow 800 600 "Bindless Texture Example", .glfwInit]
      rfl (by decide) rfl rfl rfl rfl
  rw [h4, if_neg (by decide)] at h
  cases h5 : env.glewIsSupported "GL_ARB_gpu_shader_int64"
  · rw [h5, if_pos (by decide)] at h
    cases h
    exact unpublished_print _ (unpublished_contextState env)
  rw [h5, if_neg (by decide)] at h
  have hU := unpublished_loopState env textureName [] (unpublished_preLoop env)
  cases hl : loadLoop env textureName [] (preLoop env) with
  | error e =>
    rw [hl] at h hU
    cases h
    exact hU
  | ok r =>
    rw [hl] at h
    cases h

/-- What a successful `startup` returns. -/
theorem startup_ok_inv (env : Env) (c : Setup) (s1 : GLState) (h : startup env = .ok (c, s1)) :
    env.contextReady ∧
    ∃ sL, loadLoop env textureName [] (preLoop env) = .ok (c.textureHandles, sL) ∧
      c.TextureSSBO = (createTextureSSBO env c.textureHandles sL).1 ∧
      s1 = (createTextureSSBO env c.textureHandles sL).2 ∧
      c.VAO = env.genVertexArrays 0 ∧ c.program = env.createProgram := by
  rw [startup_eq] at h
  cases h1 : env.glfwInit
  · rw [h1, if_pos (by decide)] at h; cases h
  rw [h1, if_neg (by decide)] at h
  cases h2 : env.glfwCreateWindow
  · rw [h2, if_pos (by decide)] at h; cases h
  rw [h2, if_neg (by decide)] at h
  cases h3 : env.glewInit
  · rw [h3, if_pos (by decide)] at h; cases h
  rw [h3, if_neg (by decide)] at h
  cases h4 : env.glewIsSupported "GL_ARB_bindless_texture"
  · rw [h4, if_pos (by decide)] at h; cases h
  rw [h4, if_neg (by decide)] at h
  cases h5 : env.glewIsSupported "GL_ARB_gpu_shader_int64"
  · rw [h5, if_pos (by decide)] at h; cases h
  rw [h5, if_neg (by decide)] at h
  refine ⟨⟨h1, h2, h3, h4, h5⟩, ?_⟩
  cases hl : loadLoop env textureName [] (preLoop env) with
  | error e => rw [hl] at h; cases h
  | ok r =>
    obtain ⟨t, sL⟩ := r
    rw [hl] at h
    cases h
    exact ⟨sL, rfl, rfl, rfl, rfl, rfl⟩

/-- C4: when an image of the list does not decode, `main` returns -1, and in
the state it returns from no call has created or bound a shader storage
buffer, no call of the frame loop has been made, nothing has been drawn, and
nothing is bound at the shader's binding point. -/
theorem C4_decode_failure_aborts_before_buffer (env : Env) (fuel : Nat)
    (hfail : ∃ n ∈ textureName, env.stbi_load n = none) :
    ∃ s, main env fuel = .returned (-1) s ∧
      (∀ c ∈ s.log, c.buildsHandleBuffer = false ∧ c.inFrameLoop = false) ∧
      s.draws = [] ∧ s.polls = 0 ∧
      s.indexedSSBO FragmentShader.BINDING_POINT_TEXTURE_SSBO = 0 ∧
      s.bufferBinding .GL_SHADER_STORAGE_BUFFER = 0 := by
  cases hs : startup env with
  | error s =>
    exact ⟨s, main_of_startup_error env fuel s hs, startup_error_unpublished env s hs⟩
  | ok r =>
    obtain ⟨c, s1⟩ := r
    obtain ⟨_, sL, hl, _⟩ := startup_ok_inv env c s1 hs
    obtain ⟨n, hn, hnone⟩ := hfail
    exact absurd hnone (loadLoop_decoded env _ _ _ _ _ hl n hn)

theorem C4_decode_failure_aborts_before_buffer_witness :
    ∃ s, main missingImageEnv 10 = .returned (-1) s ∧
      (∀ c ∈ s.log, c.buildsHandleBuffer = false ∧ c.inFrameLoop = false) ∧
      s.draws = [] ∧ s.polls = 0 ∧
      s.indexedSSBO FragmentShader.BINDING_POINT_TEXTURE_SSBO = 0 ∧
      s.bufferBinding .GL_SHADER_STORAGE_BUFFER = 0 :=
  C4_decode_failure_aborts_before_buffer missingImageEnv 10
    ⟨"Akali.png", by decide, by decide⟩

/-- C5: when the GPU lacks bindless textures or 64-bit shader integers, `main`
returns -1, and in the state it returns from no texture name has been
generated, no texture object exists, no handle has been acquired, nothing has
been drawn, and no texture, handle or frame loop call has been made. -/
theorem C5_missing_capability_aborts_before_textures (env : Env) (fuel : Nat)
    (hmissing : env.glewIsSupported "GL_ARB_bindless_texture" = false ∨
      env.glewIsSupported "GL_ARB_gpu_shader_int64" = false) :
    ∃ s, main env fuel = .returned (-1) s ∧
      (∀ c ∈ s.log,
        c.createsTexture = false ∧ c.acquiresHandle = false ∧ c.inFrameLoop = false) ∧
      s.texturesGenerated = 0 ∧ (∀ t, s.textures t = none) ∧
      s.handles = [] ∧ s.resident = [] ∧ s.draws = [] := by
  have key : ∃ s, startup env = .error s ∧
      (∃ l, s.log = l ∧ ∀ c ∈ l,
        c.createsTexture = false ∧ c.acquiresHandle = false ∧ c.inFrameLoop = false) ∧
      s.texturesGenerated = 0 ∧ (∀ t, s.textures t = none) ∧
      s.handles = [] ∧ s.resident = [] ∧ s.draws = [] := by
    rw [startup_eq]
    cases h1 : env.glfwInit
    · rw [if_pos (by decide)]
      exact ⟨_, rfl, ⟨[.glfwInit], rfl, by decide⟩, rfl, fun _ => rfl, rfl, rfl, rfl⟩
    rw [if_neg (by decide)]
    cases h2 : env.glfwCreateWindow
    · rw [if_pos (by decide)]
      exact ⟨_, rfl,
        ⟨[.glfwTerminate, .glfwCreateWindow 800 600 "Bindless Texture Example", .glfwInit],
          rfl, by decide⟩, rfl, fun _ => rfl, rfl, rfl, rfl⟩
    rw [if_neg (by decide)]
    cases h3 : env.glewInit
    · rw [if_pos (by decide)]
      exact ⟨_, rfl,
        ⟨[.glewInit, .glfwMakeContextCurrent,
          .glfwCreateWindow 800 600 "Bindless Texture Example", .glfwInit],
          rfl, by decide⟩, rfl, fun _ => rfl, rfl, rfl, rfl⟩
    rw [if_neg (by decide)]
    cases h4 : env.glewIsSupported "GL_ARB_bindless_texture"
    · rw [if_pos (by decide)]
      exact ⟨_, rfl,
        ⟨[.glewIsSupported "GL_ARB_bindless_texture", .glewInit, .glfwMakeContextCurrent,
          .glfwCreateWindow 800 600 "Bindless Texture Example", .glfwInit],
          rfl, by decide⟩, rfl, fun _ => rfl, rfl, rfl, rfl⟩
    rw [if_neg (by decide)]
    cases h5 : env.glewIsSupported "GL_ARB_gpu_shader_int64"
    · rw [if_pos (by decide)]
      exact ⟨_, rfl,
        ⟨[.glewIsSupported "GL_ARB_gpu_shader_int64",
          .glewIsSupported "GL_ARB_bindless_texture", .glewInit, .glfwMakeContextCurrent,
          .glfwCreateWindow 800 600 "Bindless Texture Example", .glfwInit],
          rfl, by decide⟩, rfl, fun _ => rfl, rfl, rfl, rfl⟩
    rcases hmissing with hm | hm
    · rw [h4] at hm; cases hm
    · rw [h5] at hm; cases hm
  obtain ⟨s, hs, ⟨l, hl, hq⟩, hrest⟩ := key
  exact ⟨s, main_of_startup_error env fuel s hs, by rw [hl]; exact hq, hrest⟩

theorem C5_missing_capability_aborts_before_textures_witness :
    ∃ s, main noInt64Env 10 = .returned (-1) s ∧
      (∀ c ∈ s.log,
        c.createsTexture = false ∧ c.acquiresHandle = false ∧ c.inFrameLoop = false) ∧
      s.texturesGenerated = 0 ∧ (∀ t, s.textures t = none) ∧
      s.handles = [] ∧ s.resident = [] ∧ s.draws = [] :=
  C5_missing_capability_aborts_before_textures noInt64Env 10 (Or.inr (by decide))

/-- Texture state recorded by the load loop at each handle derivation, on
either exit. -/
theorem loadLoop_records (env : Env) (names : List String) (acc : List GLuint64)
    (s0 : GLState) :
    ∃ recs, (loopState (loadLoop env names acc s0)).handles = s0.handles ++ recs ∧
      ∀ r ∈ recs, ∃ img : Image,
        r.state = { wrapS := .GL_REPEAT, wrapT := .GL_REPEAT,
                    minFilter := .GL_LINEAR, magFilter := .GL_LINEAR,
                    image := some img.toTexImage, mipmapChain := true } := by
  refine loadLoop_invariant env
    (fun s => ∃ recs, s.handles = s0.handles ++ recs ∧
      ∀ r ∈ recs, ∃ img : Image,
        r.state = { wrapS := .GL_REPEAT, wrapT := .GL_REPEAT,
                    minFilter := .GL_LINEAR, magFilter := .GL_LINEAR,
                    image := some img.toTexImage, mipmapChain := true })
    (fun _ _ hs => hs) ?_ (fun _ _ hs => hs) names acc s0 ⟨[], by simp, by simp⟩
  intro img s ⟨recs, hh, hr⟩
  refine ⟨recs ++ [_], by rw [acquireHandle_handles, hh, List.append_assoc], ?_⟩
  intro r hr'
  rcases List.mem_append.mp hr' with hr' | hr'
  · exact hr r hr'
  · rw [List.mem_singleton] at hr'; subst hr'; exact ⟨img, rfl⟩

/-- Number of `glGetTextureHandleARB` calls of a run of the load loop in which
every image decodes. -/
theorem loadLoop_acquisitions (env : Env) (names : List String) (s0 : GLState)
    (hdec : ∀ n ∈ names, env.stbi_load n ≠ none) :
    ∃ t s, loadLoop env names [] s0 = .ok (t, s) ∧
      s.log.countP Call.acquiresHandle = s0.log.countP Call.acquiresHandle + names.length := by
  have key := loadLoop_ok_rule env
    (fun done _ s =>
      s.log.countP Call.acquiresHandle = s0.log.countP Call.acquiresHandle + done.length)
    (by
      intro done name img acc s _ hP
      have h1 : (stbi_load env name s).2.log
          = [Call.stbi_load name (env.stbi_load name).isSome] ++ s.log := rfl
      have h2 : List.countP Call.acquiresHandle
          (checkedCalls env img (stbi_load env name s).2) = 1 := rfl
      have h3 : List.countP Call.acquiresHandle
          (if handleOf env (stbi_load env name s).2 ∈ (stbi_load env name s).2.resident then []
           else [Call.glMakeTextureHandleResidentARB (handleOf env (stbi_load env name s).2)])
          = 0 := by
        split <;> rfl
      have h4 : List.countP Call.acquiresHandle
          [Call.stbi_load name (env.stbi_load name).isSome] = 0 := rfl
      show List.countP Call.acquiresHandle _ = _
      rw [acquireHandle_log, List.countP_append, List.countP_append, h1, List.countP_append,
        h2, h3, h4, hP, List.length_append, List.length_singleton]
      omega)
    names [] [] s0 hdec rfl
  obtain ⟨t, s, hrun, hP⟩ := key
  exact ⟨t, s, hrun, by simpa using hP⟩

/-- C9 (as the code has it): when the load loop derives a handle, the texture
has both wrap modes `GL_REPEAT`, minification filter `GL_LINEAR` (which does
not use the mipmap chain), magnification filter `GL_LINEAR`, the uploaded
image, and a mipmap chain generated from it; and each pass makes its calls in
the order parameters, upload, `glGenerateMipmap`, `glGetTextureHandleARB`. -/
theorem C9_texture_state_at_handle_derivation (env : Env) (names : List String)
    (acc : List GLuint64) (s0 : GLState) :
    (∃ recs, (loopState (loadLoop env names acc s0)).handles = s0.handles ++ recs ∧
      ∀ r ∈ recs,
        r.state.wrapS = .GL_REPEAT ∧ r.state.wrapT = .GL_REPEAT ∧
        r.state.minFilter = .GL_LINEAR ∧ r.state.minFilter.usesMipmaps = false ∧
        r.state.magFilter = .GL_LINEAR ∧
        r.state.image.isSome = true ∧ r.state.mipmapChain = true) ∧
    ∀ img s, ∃ after,
      (acquireHandle env img s).2.log = after ++
        [.glIsTextureHandleResidentARB (handleOf env s) (decide (handleOf env s ∈ s.resident)),
         .glGetTextureHandleARB (env.genTextures s.texturesGenerated) (handleOf env s),
         .stbi_image_free,
         .glGenerateMipmap,
         .glTexImage2D img.width img.height,
         .glTexParameteri .GL_TEXTURE_MAG_FILTER .GL_LINEAR,
         .glTexParameteri .GL_TEXTURE_MIN_FILTER .GL_LINEAR,
         .glTexParameteri .GL_TEXTURE_WRAP_T .GL_REPEAT,
         .glTexParameteri .GL_TEXTURE_WRAP_S .GL_REPEAT,
         .glBindTexture (env.genTextures s.texturesGenerated),
         .glGenTextures (env.genTextures s.texturesGenerated)] ++ s.log := by
  constructor
  · obtain ⟨recs, hh, hr⟩ := loadLoop_records env names acc s0
    refine ⟨recs, hh, ?_⟩
    intro r hr'
    obtain ⟨img, hstate⟩ := hr r hr'
    rw [hstate]
    exact ⟨rfl, rfl, rfl, rfl, rfl, rfl, rfl⟩
  · intro img s
    exact ⟨_, acquireHandle_log env img s⟩

/-- C9 as stated fails: in the run of `exampleEnv` the first texture has, when
its handle is derived, a minification filter that does not use mipmapping. -/
theorem C9_counterexample :
    startup exampleEnv = .ok exampleStart ∧
    ∃ r, exampleStart.2.handles[0]? = some r ∧
      r.state.minFilter = .GL_LINEAR ∧ r.state.minFilter.usesMipmaps = false :=
  ⟨rfl, _, rfl, rfl, rfl⟩

/-- C7: with the five files of `textureName` all decoding, and a driver that
gives the five textures of the loop distinct names and distinct handles, the
load loop makes exactly five handle acquisitions and returns five pairwise
distinct resident handles; the buffer built from them is 40 bytes long; and
the shader's `TextureSSBO[4]` is in bounds and is the handle acquired for the
fifth file, "Yuumi.png". -/
theorem C7_five_images_end_to_end (env : Env) (s0 : GLState)
    (hdec : ∀ n ∈ textureName, env.stbi_load n ≠ none)
    (hnames : ∀ i < 5, ∀ j < 5,
      env.genTextures (s0.texturesGenerated + i) = env.genTextures (s0.texturesGenerated + j) →
        i = j)
    (hhandles : ∀ i < 5, ∀ j < 5,
      env.textureHandle (env.genTextures (s0.texturesGenerated + i)) % 2 ^ 64
        = env.textureHandle (env.genTextures (s0.texturesGenerated + j)) % 2 ^ 64 →
      env.genTextures (s0.texturesGenerated + i) = env.genTextures (s0.texturesGenerated + j)) :
    ∃ table s recs, loadLoop env textureName [] s0 = .ok (table, s) ∧
      s.log.countP Call.acquiresHandle = s0.log.countP Call.acquiresHandle + 5 ∧
      s.handles = s0.handles ++ recs ∧ recs.length = 5 ∧
      table = recs.map (fun r => r.handle) ∧ table.Nodup ∧
      (∀ h ∈ table, (glIsTextureHandleResidentARB h s).1 = true) ∧
      ∃ data yuumi r,
        (createTextureSSBO env table s).2.buffers (createTextureSSBO env table s).1
          = some { data := data, usage := .GL_STATIC_DRAW } ∧
        data.length = 40 ∧
        env.stbi_load "Yuumi.png" = some yuumi ∧
        recs[4]? = some r ∧ r.state.image = some yuumi.toTexImage ∧
        table[4]? = some r.handle ∧
        FragmentShader.GetCurrentTextureHandle data = some r.handle := by
  obtain ⟨recs, s, hrun, hh, hf, htex⟩ := loadLoop_ok env textureName s0 hdec
  have hlen : recs.length = 5 := hf.length_eq.symm
  -- each record carries the driver's handle for its texture
  have hrec : ∀ r ∈ recs, r.handle = env.textureHandle r.texture % 2 ^ 64 := by
    intro r hr
    obtain ⟨i, hi, rfl⟩ := List.getElem_of_mem hr
    have hi' : i < textureName.length := by rw [hf.length_eq]; exact hi
    obtain ⟨_, _, hhd, _⟩ := (List.forall₂_iff_get.mp hf).2 i hi' hi
    exact hhd
  have htable : recs.map (fun r => r.handle)
      = (List.range 5).map (fun i =>
          env.textureHandle (env.genTextures (s0.texturesGenerated + i)) % 2 ^ 64) := by
    have h1 : recs.map (fun r => r.handle)
        = (recs.map (fun r => r.texture)).map (fun t => env.textureHandle t % 2 ^ 64) := by
      rw [List.map_map]
      exact List.map_congr_left hrec
    rw [h1, htex, List.map_map]
    rfl
  have hnodup : (recs.map (fun r => r.handle)).Nodup := by
    rw [htable]
    refine List.Nodup.map_on ?_ (List.nodup_range 5)
    intro i hi j hj e
    rw [List.mem_range] at hi hj
    exact hnames i hi j hj (hhandles i hi j hj e)
  -- residency
  obtain ⟨recs', hh', hres, _⟩ := loadLoop_residency env textureName [] s0
  rw [hrun] at hh' hres
  have hsame : recs' = recs := List.append_cancel_left (hh'.symm.trans hh)
  subst hsame
  -- the acquisition calls
  obtain ⟨t2, s2, hrun2, hcount⟩ := loadLoop_acquisitions env textureName s0 hdec
  rw [hrun] at hrun2
  cases hrun2
  -- the fifth record
  have h4 : 4 < recs'.length := by omega
  obtain ⟨yuumi, hy, hhd, hstate⟩ := (List.forall₂_iff_get.mp hf).2 4 (by decide) h4
  have hr4 : recs'[4].handle < 2 ^ 64 := by
    have := hrec _ (List.getElem_mem h4)
    rw [this]
    exact Nat.mod_lt _ (by decide)
  have hmaplen : (recs'.map (fun r => r.handle)).length = 5 := by rw [List.length_map, hlen]
  refine ⟨_, s, recs', hrun, hcount, hh, hlen, rfl, hnodup, ?_, ?_⟩
  · intro h hmem
    obtain ⟨r, hr, rfl⟩ := List.mem_map.mp hmem
    exact decide_eq_true (hres r hr)
  · refine ⟨memoryOfHandles (recs'.map (fun r => r.handle)), yuumi, recs'[4], ?_, ?_, hy,
      List.getElem?_eq_getElem h4, ?_, ?_, ?_⟩
    · exact createTextureSSBO_buffer env _ s (by rw [hmaplen]; decide)
    · rw [length_memoryOfHandles, hmaplen]
    · have : recs'[4].state = _ := hstate
      rw [this]
    · rw [List.getElem?_map, List.getElem?_eq_getElem h4]; rfl
    · have h4' : 4 < (recs'.map (fun r => r.handle)).length := by omega
      show FragmentShader.TextureSSBO _ 4 = _
      rw [TextureSSBO_memoryOfHandles _ 4 h4', List.getElem_map, Nat.mod_eq_of_lt hr4]

theorem C7_five_images_end_to_end_witness :
    ∃ table s recs, loadLoop exampleEnv textureName [] GLState.initial = .ok (table, s) ∧
      s.log.countP Call.acquiresHandle
        = GLState.initial.log.countP Call.acquiresHandle + 5 ∧
      s.handles = GLState.initial.handles ++ recs ∧ recs.length = 5 ∧
      table = recs.map (fun r => r.handle) ∧ table.Nodup ∧
      (∀ h ∈ table, (glIsTextureHandleResidentARB h s).1 = true) ∧
      ∃ data yuumi r,
        (createTextureSSBO exampleEnv table s).2.buffers (createTextureSSBO exampleEnv table s).1
          = some { data := data, usage := .GL_STATIC_DRAW } ∧
        data.length = 40 ∧
        exampleEnv.stbi_load "Yuumi.png" = some yuumi ∧
        recs[4]? = some r ∧ r.state.image = some yuumi.toTexImage ∧
        table[4]? = some r.handle ∧
        FragmentShader.GetCurrentTextureHandle data = some r.handle :=
  C7_five_images_end_to_end exampleEnv GLState.initial
    (fun _ _ => Option.some_ne_none _) (by decide) (by decide)

/-- State in which a successful `startup` hands over to the frame loop. -/
theorem startup_ok_state (env : Env) (c : Setup) (s1 : GLState)
    (h : startup env = .ok (c, s1)) :
    c.textureHandles.length = 5 ∧
    s1.buffers c.TextureSSBO
      = some { data := memoryOfHandles c.textureHandles, usage := .GL_STATIC_DRAW } ∧
    s1.draws = [] ∧ s1.polls = 0 := by
  obtain ⟨_, sL, hl, hssbo, hs1, _, _⟩ := startup_ok_inv env c s1 h
  have hdec := loadLoop_decoded env _ _ _ _ _ hl
  obtain ⟨recs, s, hrun, _, hf, _⟩ := loadLoop_ok env textureName (preLoop env) hdec
  rw [hl] at hrun
  have hlen : c.textureHandles.length = 5 := by
    have : c.textureHandles = recs.map (fun r => r.handle) := by
      injection hrun with e; injection e
    rw [this, List.length_map, ← hf.length_eq]
    rfl
  have hU := unpublished_loopState env textureName [] (unpublished_preLoop env)
  rw [hl] at hU
  refine ⟨hlen, ?_, ?_, ?_⟩
  · rw [hssbo, hs1]
    exact createTextureSSBO_buffer env _ sL (by rw [hlen]; decide)
  · rw [hs1, createTextureSSBO_draws]; exact hU.2.1
  · rw [hs1, createTextureSSBO_polls]; exact hU.2.2.1

/-- C8: in every run that reaches the frame loop, and however long the loop
has run, the calls of the loop are whole passes in each of which
`glBindBufferBase(GL_SHADER_STORAGE_BUFFER, 2, TextureSSBO)` comes before
`glDrawElements` (slot 2 is also the shader's binding), no pass changes any
buffer, and every draw finds at the shader's binding point the buffer
`TextureSSBO` holding exactly the bytes of the handle table built at startup. -/
theorem C8_every_draw_sees_the_startup_table (env : Env) (fuel : Nat) (c : Setup)
    (s1 : GLState) (hstart : startup env = .ok (c, s1)) :
    BINDING_POINT_TEXTURE_SSBO = FragmentShader.BINDING_POINT_TEXTURE_SSBO ∧
    ∃ n, n ≤ fuel ∧
      (frameLoop env c fuel s1).2.log =
        (if (frameLoop env c fuel s1).1 then [Call.glfwWindowShouldClose true] else []) ++
          ((List.replicate n
            [.glfwPollEvents, .glfwSwapBuffers, .glDrawElements 6, .glBindVertexArray c.VAO,
             .glBindBufferBase .GL_SHADER_STORAGE_BUFFER 2 c.TextureSSBO,
             .glUseProgram c.program, .glClear, .glfwWindowShouldClose false]).flatten
            ++ s1.log) ∧
      (frameLoop env c fuel s1).2.draws.length = n ∧
      (∀ d ∈ (frameLoop env c fuel s1).2.draws,
        d.ssbo = c.TextureSSBO ∧
        d.ssboContents = some (memoryOfHandles c.textureHandles)) ∧
      (frameLoop env c fuel s1).2.buffers = s1.buffers ∧
      s1.buffers c.TextureSSBO
        = some { data := memoryOfHandles c.textureHandles, usage := .GL_STATIC_DRAW } := by
  obtain ⟨_, hbuf, hdraws, _⟩ := startup_ok_state env c s1 hstart
  obtain ⟨n, hn, hlog, hd, hb, _, _, _, _, _⟩ := frameLoop_shape env c fuel s1
  rw [hdraws, List.nil_append, hbuf] at hd
  refine ⟨rfl, n, hn, hlog, by rw [hd, List.length_replicate], ?_, hb, hbuf⟩
  intro d hmem
  rw [hd] at hmem
  rw [List.eq_of_mem_replicate hmem]
  exact ⟨rfl, rfl⟩

theorem C8_every_draw_sees_the_startup_table_witness :
    BINDING_POINT_TEXTURE_SSBO = FragmentShader.BINDING_POINT_TEXTURE_SSBO ∧
    ∃ n, n ≤ 10 ∧
      (frameLoop exampleEnv exampleStart.1 10 exampleStart.2).2.log =
        (if (frameLoop exampleEnv exampleStart.1 10 exampleStart.2).1
          then [Call.glfwWindowShouldClose true] else []) ++
          ((List.replicate n
            [.glfwPollEvents, .glfwSwapBuffers, .glDrawElements 6,
             .glBindVertexArray exampleStart.1.VAO,
             .glBindBufferBase .GL_SHADER_STORAGE_BUFFER 2 exampleStart.1.TextureSSBO,
             .glUseProgram exampleStart.1.program, .glClear,
             .glfwWindowShouldClose false]).flatten
            ++ exampleStart.2.log) ∧
      (frameLoop exampleEnv exampleStart.1 10 exampleStart.2).2.draws.length = n ∧
      (∀ d ∈ (frameLoop exampleEnv exampleStart.1 10 exampleStart.2).2.draws,
        d.ssbo = exampleStart.1.TextureSSBO ∧
        d.ssboContents = some (memoryOfHandles exampleStart.1.textureHandles)) ∧
      (frameLoop exampleEnv exampleStart.1 10 exampleStart.2).2.buffers
        = exampleStart.2.buffers ∧
      exampleStart.2.buffers exampleStart.1.TextureSSBO
        = some { data := memoryOfHandles exampleStart.1.textureHandles,
                 usage := .GL_STATIC_DRAW } :=
  C8_every_draw_sees_the_startup_table exampleEnv 10 exampleStart.1 exampleStart.2 rfl

/-! ## Diagnostics -/

theorem acquireHandle_cerr (env : Env) (img : Image) (s : GLState) :
    (acquireHandle env img s).2.cerr = s.cerr := by
  rw [acquireHandle_eq]
  split <;> rfl

/-- A line written to `std::cerr` before the load loop is still there after it. -/
theorem loadLoop_cerr (env : Env) (msg : String) (names : List String) (acc : List GLuint64)
    (s : GLState) (h : msg ∈ s.cerr) : msg ∈ (loopState (loadLoop env names acc s)).cerr :=
  loadLoop_invariant env (fun s => msg ∈ s.cerr) (fun _ _ hs => hs)
    (fun img s hs => by
      show msg ∈ (acquireHandle env img s).2.cerr
      rw [acquireHandle_cerr]; exact hs)
    (fun _ _ hs => List.mem_cons_of_mem _ hs) names acc s h

theorem preLoop_cerr (env : Env) :
    (preLoop env).cerr =
      linkDiagnostics env ++
        (compileDiagnostics env .fragmentShaderSource .GL_FRAGMENT_SHADER ++
          (compileDiagnostics env .vertexShaderSource .GL_VERTEX_SHADER ++ [])) := by
  rw [preLoop, createProgram_cerr]
  rfl

/-- The first pass of the frame loop, when the window is not closed at once. -/
theorem frameLoop_first_draw (env : Env) (c : Setup) (fuel : Nat) (s : GLState)
    (hopen : env.windowShouldClose s.polls = false) :
    (frameLoop env c (fuel + 1) s).2.draws ≠ [] ∧
    Call.glDrawElements 6 ∈ (frameLoop env c (fuel + 1) s).2.log := by
  rw [frameLoop_succ, hopen]
  obtain ⟨n, _, hlog, hd, _⟩ := frameLoop_shape env c fuel (frame c (glfwWindowShouldClose env s).2)
  have hl : (frame c (glfwWindowShouldClose env s).2).log
      = [.glfwPollEvents, .glfwSwapBuffers, .glDrawElements 6] ++
        (.glBindVertexArray c.VAO ::
          .glBindBufferBase .GL_SHADER_STORAGE_BUFFER 2 c.TextureSSBO ::
          .glUseProgram c.program :: .glClear ::
          .glfwWindowShouldClose (env.windowShouldClose s.polls) :: s.log) := rfl
  constructor
  · show (frameLoop env c fuel (frame c (glfwWindowShouldClose env s).2)).2.draws ≠ []
    rw [hd, frame_draws]
    simp
  · show _ ∈ (frameLoop env c fuel (frame c (glfwWindowShouldClose env s).2)).2.log
    rw [hlog, hl]
    simp

theorem main_state_of_startup_ok (env : Env) (fuel : Nat) (c : Setup) (s : GLState)
    (h : startup env = .ok (c, s)) :
    (main env fuel).state.draws = (frameLoop env c fuel s).2.draws ∧
    ∀ call ∈ (frameLoop env c fuel s).2.log, call ∈ (main env fuel).state.log := by
  rw [main_of_startup_ok env fuel c s h]
  cases (frameLoop env c fuel s).1
  · exact ⟨rfl, fun _ hc => hc⟩
  · refine ⟨rfl, fun call hc => ?_⟩
    show call ∈ _ :: _ :: _ :: _ :: (frameLoop env c fuel s).2.log
    simp [hc]

/-- An information log read through a buffer of `bufSize` characters has at
most `bufSize - 1` of them. -/
theorem readInfoLog_length (bufSize : Nat) (log : String) :
    (readInfoLog bufSize log).length ≤ bufSize - 1 := by
  rw [readInfoLog, String.length_mk, List.length_take]
  exact Nat.min_le_left _ _

/-- Logs of 600 characters reach `std::cerr` cut to 511. -/
theorem readInfoLog_longLogEnv :
    readInfoLog 512 (longLogEnv.shaderInfoLog .vertexShaderSource .GL_VERTEX_SHADER)
      = String.mk (List.replicate 511 (Char.ofNat 101)) ∧
    readInfoLog 512 longLogEnv.programInfoLog
      = String.mk (List.replicate 511 (Char.ofNat 108)) := by
  have h101 : (Char.ofNat 101 != Char.ofNat 0) = true := by decide
  have h108 : (Char.ofNat 108 != Char.ofNat 0) = true := by decide
  constructor
  · show String.mk (((List.replicate 600 (Char.ofNat 101)).takeWhile
      (fun ch => ch != Char.ofNat 0)).take (512 - 1)) = _
    rw [List.takeWhile_replicate, if_pos h101, List.take_replicate]
    rfl
  · show String.mk (((List.replicate 600 (Char.ofNat 108)).takeWhile
      (fun ch => ch != Char.ofNat 0)).take (512 - 1)) = _
    rw [List.takeWhile_replicate, if_pos h108, List.take_replicate]
    rfl

theorem frameLoop_cerr (env : Env) (c : Setup) :
    ∀ fuel s, (frameLoop env c fuel s).2.cerr = s.cerr := by
  intro fuel
  induction fuel with
  | zero => intro s; rfl
  | succ fuel ih =>
    intro s
    rw [frameLoop_succ]
    cases env.windowShouldClose s.polls
    · show (frameLoop env c fuel (frame c (glfwWindowShouldClose env s).2)).2.cerr = _
      rw [ih]; rfl
    · rfl

/-- In a run that passes the checks of lines 84-121, a line written to
`std::cerr` before the load loop is there in every later state of `main`. -/
theorem main_cerr_of_ready (env : Env) (hready : env.contextReady) (msg : String)
    (hmsg : msg ∈ (preLoop env).cerr) (fuel : Nat) : msg ∈ (main env fuel).state.cerr := by
  have hloop := loadLoop_cerr env msg textureName [] (preLoop env) hmsg
  have hstart := startup_of_ready env hready
  cases hl : loadLoop env textureName [] (preLoop env) with
  | error e =>
    rw [hl] at hstart hloop
    rw [main_of_startup_error env fuel e hstart]
    exact hloop
  | ok r =>
    obtain ⟨t, sL⟩ := r
    rw [hl] at hstart hloop
    rw [main_of_startup_ok env fuel _ _ hstart]
    have hc := frameLoop_cerr env
      { VAO := env.genVertexArrays 0, VBO := env.genBuffers 0, EBO := env.genBuffers 1,
        program := env.createProgram, textureHandles := t,
        TextureSSBO := (createTextureSSBO env t sL).1 } fuel (createTextureSSBO env t sL).2
    split
    · show msg ∈ (frameLoop env _ fuel (createTextureSSBO env t sL).2).2.cerr
      rw [hc]; exact hloop
    · show msg ∈ (frameLoop env _ fuel (createTextureSSBO env t sL).2).2.cerr
      rw [hc]; exact hloop

/-- C6 as stated fails: in the run of `brokenShaderEnv` neither shader
compiles and the program does not link, the three diagnostics are written, and
`main` still goes through the frame loop, issues two draw calls and returns 0. -/
theorem C6_counterexample :
    brokenShaderEnv.compile .vertexShaderSource .GL_VERTEX_SHADER = false ∧
    brokenShaderEnv.compile .fragmentShaderSource .GL_FRAGMENT_SHADER = false ∧
    brokenShaderEnv.link = false ∧
    ∃ s, main brokenShaderEnv 3 = .returned 0 s ∧
      s.cerr =
        ["Program linking error:\nLink failed: attached shaders are not compiled",
         "Shader compilation error:\n0(2) : error C0201: unsupported version 460",
         "Shader compilation error:\n0(2) : error C0201: unsupported version 460"] ∧
      s.log.countP Call.isDraw = 2 ∧ s.draws.length = 2 :=
  ⟨rfl, rfl, rfl, _, rfl, by decide, rfl, rfl⟩

/-- C6 (as the code has it): a compile or link failure is reported and is not
fatal.  In a run that passes the checks of lines 84-121, each failed compile
or link has its diagnostic on `std::cerr` (the heading and what the 512
character buffer holds of the information log, at most 511 characters), and
startup goes on: when every image decodes it completes, whatever the compile
and link statuses are, and the frame loop is entered, where a draw call is
issued unless the window is closed at once. -/
theorem C6_shader_failure_reported_not_fatal (env : Env) (hready : env.contextReady) :
    (∀ fuel,
      (env.compile .vertexShaderSource .GL_VERTEX_SHADER = false →
        ("Shader compilation error:\n" ++
          readInfoLog 512 (env.shaderInfoLog .vertexShaderSource .GL_VERTEX_SHADER))
          ∈ (main env fuel).state.cerr) ∧
      (env.compile .fragmentShaderSource .GL_FRAGMENT_SHADER = false →
        ("Shader compilation error:\n" ++
          readInfoLog 512 (env.shaderInfoLog .fragmentShaderSource .GL_FRAGMENT_SHADER))
          ∈ (main env fuel).state.cerr) ∧
      (env.link = false →
        ("Program linking error:\n" ++ readInfoLog 512 env.programInfoLog)
          ∈ (main env fuel).state.cerr)) ∧
    (∀ src ty, (readInfoLog 512 (env.shaderInfoLog src ty)).length ≤ 511) ∧
    (readInfoLog 512 env.programInfoLog).length ≤ 511 ∧
    ((∀ n ∈ textureName, env.stbi_load n ≠ none) →
      ∃ c s1, startup env = .ok (c, s1) ∧
        ∀ fuel, env.windowShouldClose 0 = false →
          (main env (fuel + 1)).state.draws ≠ [] ∧
          Call.glDrawElements 6 ∈ (main env (fuel + 1)).state.log) := by
  refine ⟨?_, fun _ _ => readInfoLog_length 512 _, readInfoLog_length 512 _, ?_⟩
  · intro fuel
    refine ⟨?_, ?_, ?_⟩
    · intro hfail
      apply main_cerr_of_ready env hready
      rw [preLoop_cerr]
      simp [compileDiagnostics, hfail]
    · intro hfail
      apply main_cerr_of_ready env hready
      rw [preLoop_cerr]
      simp [compileDiagnostics, hfail]
    · intro hfail
      apply main_cerr_of_ready env hready
      rw [preLoop_cerr]
      simp [linkDiagnostics, hfail]
  · intro hdec
    obtain ⟨recs, sL, hrun, _⟩ := loadLoop_ok env textureName (preLoop env) hdec
    have hstart := startup_of_ready env hready
    rw [hrun] at hstart
    refine ⟨_, _, hstart, ?_⟩
    intro fuel hopen
    obtain ⟨_, _, _, hpolls⟩ := startup_ok_state env _ _ hstart
    have hopen' : env.windowShouldClose
        (createTextureSSBO env (recs.map (fun r => r.handle)) sL).2.polls = false := by
      rw [hpolls]; exact hopen
    obtain ⟨hd, hl⟩ := frameLoop_first_draw env _ fuel _ hopen'
    obtain ⟨hmd, hml⟩ := main_state_of_startup_ok env (fuel + 1) _ _ hstart
    exact ⟨by rw [hmd]; exact hd, hml _ hl⟩

theorem C6_shader_failure_reported_not_fatal_witness :
    (∀ fuel,
      (longLogEnv.compile .vertexShaderSource .GL_VERTEX_SHADER = false →
        ("Shader compilation error:\n" ++
          readInfoLog 512 (longLogEnv.shaderInfoLog .vertexShaderSource .GL_VERTEX_SHADER))
          ∈ (main longLogEnv fuel).state.cerr) ∧
      (longLogEnv.compile .fragmentShaderSource .GL_FRAGMENT_SHADER = false →
        ("Shader compilation error:\n" ++
          readInfoLog 512 (longLogEnv.shaderInfoLog .fragmentShaderSource .GL_FRAGMENT_SHADER))
          ∈ (main longLogEnv fuel).state.cerr) ∧
      (longLogEnv.link = false →
        ("Program linking error:\n" ++ readInfoLog 512 longLogEnv.programInfoLog)
          ∈ (main longLogEnv fuel).state.cerr)) ∧
    (∀ src ty, (readInfoLog 512 (longLogEnv.shaderInfoLog src ty)).length ≤ 511) ∧
    (readInfoLog 512 longLogEnv.programInfoLog).length ≤ 511 ∧
    ((∀ n ∈ textureName, longLogEnv.stbi_load n ≠ none) →
      ∃ c s1, startup longLogEnv = .ok (c, s1) ∧
        ∀ fuel, longLogEnv.windowShouldClose 0 = false →
          (main longLogEnv (fuel + 1)).state.draws ≠ [] ∧
          Call.glDrawElements 6 ∈ (main longLogEnv (fuel + 1)).state.log) :=
  C6_shader_failure_reported_not_fatal longLogEnv ⟨rfl, rfl, rfl, rfl, rfl⟩

end BindlessDemo
